import Mathlib

/-!
Zenpower: telemetry decoding and configuration lookup.

A shallow embedding of the zenpower hardware-monitoring driver
(`zenpower.h`, `zenpower_core.c`, `zenpower_temp.c`, `zenpower_svi2.c`,
`zenpower_rapl.c`).

Conventions of the embedding:

* `u8`, `u16`, `u32`, `u64` values are natural numbers; every C operation that
  can leave the range of its type is followed by an explicit reduction modulo
  `2^32` or `2^64`.
* `s32` and `long` values are integers.  The driver runs in an x86-64 kernel,
  where `long` is 64 bits wide: converting an `unsigned int` to `long`
  keeps its value, converting a `u64` to `long` reinterprets it in two's
  complement.
* Register accesses (`read_amdsmn_addr`, `rdmsrq_safe`, `ktime_get`) are read
  from a snapshot `Hw` of the hardware taken for the duration of one call.
-/

namespace Zenpower

/-! ## Machine arithmetic -/

/-- Reduction of a natural number to the range of `u32`. -/
def wrap_u32 (x : Nat) : Nat := x % 2 ^ 32

/-- Reduction of a natural number to the range of `u64`. -/
def wrap_u64 (x : Nat) : Nat := x % 2 ^ 64

/-- Conversion of an integer to `u32` (reduction modulo `2^32`). -/
def int_to_u32 (v : Int) : Nat := (v % 2 ^ 32).toNat

/-- Conversion of an integer to `s32` (two's complement, 32 bits). -/
def int_to_s32 (v : Int) : Int :=
  if v % 2 ^ 32 < 2 ^ 31 then v % 2 ^ 32 else v % 2 ^ 32 - 2 ^ 32

/-- Conversion of an `unsigned int` to the 64-bit `long`: the value is kept
(zero extension). -/
def u32_to_long (x : Nat) : Int := ((x % 2 ^ 32 : Nat) : Int)

/-- Conversion of a `u64` to the 64-bit `long` (two's complement). -/
def u64_to_long (x : Nat) : Int :=
  if x % 2 ^ 64 < 2 ^ 63 then ((x % 2 ^ 64 : Nat) : Int)
  else ((x % 2 ^ 64 : Nat) : Int) - 2 ^ 64

/-! ## Constants of `zenpower.h` and `zenpower_core.c` -/

def ZEN_CFG_ZEN2_CALC : Nat := 1
def ZEN_CFG_MULTINODE : Nat := 2
def ZEN_CFG_RAPL : Nat := 4
def ZEN_CFG_IS_ZEN5 : Nat := 8
def ZEN_CFG_NO_RAPL_CORE : Nat := 16

def F17H_M01H_REPORTED_TEMP_CTRL : Nat := 0x00059800
def F17H_M01H_SVI : Nat := 0x0005A000
def F17H_M02H_SVI : Nat := 0x0006F000
def F17H_M01H_SVI_TEL_PLANE0 : Nat := F17H_M01H_SVI + 0xC
def F17H_M01H_SVI_TEL_PLANE1 : Nat := F17H_M01H_SVI + 0x10
def F17H_M30H_SVI_TEL_PLANE0 : Nat := F17H_M01H_SVI + 0x14
def F17H_M30H_SVI_TEL_PLANE1 : Nat := F17H_M01H_SVI + 0x10
def F17H_M60H_SVI_TEL_PLANE0 : Nat := F17H_M02H_SVI + 0x38
def F17H_M60H_SVI_TEL_PLANE1 : Nat := F17H_M02H_SVI + 0x3C
def F17H_M70H_SVI_TEL_PLANE0 : Nat := F17H_M01H_SVI + 0x10
def F17H_M70H_SVI_TEL_PLANE1 : Nat := F17H_M01H_SVI + 0xC
def F19H_M01H_SVI_TEL_PLANE0 : Nat := F17H_M01H_SVI + 0x14
def F19H_M01H_SVI_TEL_PLANE1 : Nat := F17H_M01H_SVI + 0x10
def F19H_M21H_SVI_TEL_PLANE0 : Nat := F17H_M01H_SVI + 0x10
def F19H_M21H_SVI_TEL_PLANE1 : Nat := F17H_M01H_SVI + 0xC
def F19H_M50H_SVI_TEL_PLANE0 : Nat := F17H_M02H_SVI + 0x38
def F19H_M50H_SVI_TEL_PLANE1 : Nat := F17H_M02H_SVI + 0x3C
def F1AH_M70H_SVI_TEL_PLANE0 : Nat := 0x00073010
def F1AH_M70H_SVI_TEL_PLANE1 : Nat := 0x00073014
def F17H_M70H_CCD_TEMP_BASE : Nat := 0x00059954
def F1AH_M70H_CCD_TEMP_BASE : Nat := 0x00059b08

/-- The macro `F17H_M70H_CCD_TEMP(x)`, evaluated in `int` arithmetic. -/
def F17H_M70H_CCD_TEMP (x : Int) : Int := 0x00059954 + x * 4

/-- The macro `F1AH_M70H_CCD_TEMP(x)`, evaluated in `int` arithmetic. -/
def F1AH_M70H_CCD_TEMP (x : Int) : Int := 0x00059b08 + x * 4

def F17H_TEMP_ADJUST_MASK : Nat := 0x80000
def ZEN_CCD_TEMP_VALID : Nat := 2 ^ 11
def ZEN_CCD_TEMP_MASK : Nat := 0x7ff

/-! ## Model configuration table -/

/-- The record `struct zenpower_model_config`; a `NULL` name is `none`. -/
structure zenpower_model_config where
  family : Nat
  model : Nat
  svi_core_addr : Nat
  svi_soc_addr : Nat
  ccd_temp_base : Nat
  num_ccds : Nat
  flags : Nat
  name : Option String
  deriving DecidableEq, Repr

/-- The array `model_configs`, with its all-zero sentinel as last element. -/
def model_configs : List zenpower_model_config :=
  [ { family := 0x17, model := 0x01,
      svi_core_addr := F17H_M01H_SVI_TEL_PLANE0,
      svi_soc_addr := F17H_M01H_SVI_TEL_PLANE1,
      ccd_temp_base := F17H_M70H_CCD_TEMP_BASE,
      num_ccds := 4,
      flags := 0,
      name := some "Zen/Zen+ (17h/01h)" },
    { family := 0x17, model := 0x08,
      svi_core_addr := F17H_M01H_SVI_TEL_PLANE0,
      svi_soc_addr := F17H_M01H_SVI_TEL_PLANE1,
      ccd_temp_base := F17H_M70H_CCD_TEMP_BASE,
      num_ccds := 4,
      flags := 0,
      name := some "Zen+ (17h/08h)" },
    { family := 0x17, model := 0x11,
      svi_core_addr := F17H_M01H_SVI_TEL_PLANE0,
      svi_soc_addr := F17H_M01H_SVI_TEL_PLANE1,
      ccd_temp_base := F17H_M70H_CCD_TEMP_BASE,
      num_ccds := 0,
      flags := 0,
      name := some "Zen APU (17h/11h)" },
    { family := 0x17, model := 0x18,
      svi_core_addr := F17H_M01H_SVI_TEL_PLANE0,
      svi_soc_addr := F17H_M01H_SVI_TEL_PLANE1,
      ccd_temp_base := F17H_M70H_CCD_TEMP_BASE,
      num_ccds := 0,
      flags := 0,
      name := some "Zen+ APU (17h/18h)" },
    { family := 0x17, model := 0x31,
      svi_core_addr := F17H_M30H_SVI_TEL_PLANE0,
      svi_soc_addr := F17H_M30H_SVI_TEL_PLANE1,
      ccd_temp_base := F17H_M70H_CCD_TEMP_BASE,
      num_ccds := 8,
      flags := ZEN_CFG_ZEN2_CALC ||| ZEN_CFG_MULTINODE,
      name := some "Zen2 TR/EPYC (17h/31h)" },
    { family := 0x17, model := 0x60,
      svi_core_addr := F17H_M60H_SVI_TEL_PLANE0,
      svi_soc_addr := F17H_M60H_SVI_TEL_PLANE1,
      ccd_temp_base := F17H_M70H_CCD_TEMP_BASE,
      num_ccds := 8,
      flags := ZEN_CFG_ZEN2_CALC,
      name := some "Zen2 APU (17h/60h)" },
    { family := 0x17, model := 0x71,
      svi_core_addr := F17H_M70H_SVI_TEL_PLANE0,
      svi_soc_addr := F17H_M70H_SVI_TEL_PLANE1,
      ccd_temp_base := F17H_M70H_CCD_TEMP_BASE,
      num_ccds := 8,
      flags := ZEN_CFG_ZEN2_CALC,
      name := some "Zen2 Ryzen (17h/71h)" },
    { family := 0x19, model := 0x00,
      svi_core_addr := F19H_M01H_SVI_TEL_PLANE0,
      svi_soc_addr := F19H_M01H_SVI_TEL_PLANE1,
      ccd_temp_base := F17H_M70H_CCD_TEMP_BASE,
      num_ccds := 8,
      flags := ZEN_CFG_ZEN2_CALC,
      name := some "Zen3 SP3/TR (19h/00h)" },
    { family := 0x19, model := 0x01,
      svi_core_addr := F19H_M01H_SVI_TEL_PLANE0,
      svi_soc_addr := F19H_M01H_SVI_TEL_PLANE1,
      ccd_temp_base := F17H_M70H_CCD_TEMP_BASE,
      num_ccds := 8,
      flags := ZEN_CFG_ZEN2_CALC,
      name := some "Zen3 SP3/TR (19h/01h)" },
    { family := 0x19, model := 0x21,
      svi_core_addr := F19H_M21H_SVI_TEL_PLANE0,
      svi_soc_addr := F19H_M21H_SVI_TEL_PLANE1,
      ccd_temp_base := F17H_M70H_CCD_TEMP_BASE,
      num_ccds := 2,
      flags := ZEN_CFG_ZEN2_CALC,
      name := some "Zen3 Ryzen (19h/21h)" },
    { family := 0x19, model := 0x50,
      svi_core_addr := F19H_M50H_SVI_TEL_PLANE0,
      svi_soc_addr := F19H_M50H_SVI_TEL_PLANE1,
      ccd_temp_base := F17H_M70H_CCD_TEMP_BASE,
      num_ccds := 2,
      flags := ZEN_CFG_ZEN2_CALC,
      name := some "Zen3 APU (19h/50h)" },
    { family := 0x1a, model := 0x70,
      svi_core_addr := F1AH_M70H_SVI_TEL_PLANE0,
      svi_soc_addr := F1AH_M70H_SVI_TEL_PLANE1,
      ccd_temp_base := F1AH_M70H_CCD_TEMP_BASE,
      num_ccds := 8,
      flags := ZEN_CFG_ZEN2_CALC ||| ZEN_CFG_RAPL ||| ZEN_CFG_IS_ZEN5 |||
        ZEN_CFG_NO_RAPL_CORE,
      name := some "Zen5 Strix Halo (1Ah/70h)" },
    { family := 0, model := 0, svi_core_addr := 0, svi_soc_addr := 0,
      ccd_temp_base := 0, num_ccds := 0, flags := 0, name := none } ]

/-- The loop of `lookup_model_config`, started with `cfg` pointing at the head
of the given part of the array: it stops at the first entry whose family is
zero, and returns the first entry before it that matches on both fields.
Running past the end of the array does not occur for an array that ends in the
sentinel; the empty list yields `none`. -/
def lookup_from : List zenpower_model_config → Nat → Nat →
    Option zenpower_model_config
  | [], _, _ => none
  | cfg :: rest, family, model =>
    if cfg.family = 0 then none
    else if cfg.family = family ∧ cfg.model = model then some cfg
    else lookup_from rest family model

/-- The function `lookup_model_config`: a pointer to the entry, or `NULL`. -/
def lookup_model_config (family model : Nat) : Option zenpower_model_config :=
  lookup_from model_configs family model

/-! ## Temperature offsets -/

/-- The record `struct tctl_offset`. -/
structure tctl_offset where
  model : Nat
  id : String
  offset : Int
  deriving DecidableEq, Repr

/-- The array `tctl_offset_table`. -/
def tctl_offset_table : List tctl_offset :=
  [ { model := 0x17, id := "AMD Ryzen 5 1600X", offset := 20000 },
    { model := 0x17, id := "AMD Ryzen 7 1700X", offset := 20000 },
    { model := 0x17, id := "AMD Ryzen 7 1800X", offset := 20000 },
    { model := 0x17, id := "AMD Ryzen 7 2700X", offset := 10000 },
    { model := 0x17, id := "AMD Ryzen Threadripper 19", offset := 27000 },
    { model := 0x17, id := "AMD Ryzen Threadripper 29", offset := 27000 } ]

/-- The values `temp_offset` can hold after probe: the initial `0`, or the
offset of a row of `tctl_offset_table`. -/
def selectable_offsets : List Int := 0 :: tctl_offset_table.map tctl_offset.offset

/-! ## Runtime state and hardware snapshot -/

/-- Read of element `i` of a C array of `n` elements; `none` outside it. -/
def array_get? {α : Type} {n : Nat} (a : Fin n → α) (i : Int) : Option α :=
  if h : 0 ≤ i ∧ i < n then some (a ⟨i.toNat, by omega⟩) else none

/-- Write of `v` to element `i` of a C array of `n` elements. -/
def array_set {α : Type} {n : Nat} (a : Fin n → α) (i : Int) (v : α) : Fin n → α :=
  fun j => if (j.val : Int) = i then v else a j

/-- The record `struct zenpower_data`, without the device pointer; the access
method chosen in `read_amdsmn_addr` is part of the hardware snapshot. -/
structure zenpower_data where
  svi_core_addr : Nat
  svi_soc_addr : Nat
  node_id : Nat
  cpu_id : Nat
  nodes_per_cpu : Nat
  temp_offset : Int
  zen2 : Bool
  zen5 : Bool
  kernel_smn_support : Bool
  amps_visible : Bool
  ccd_visible : Fin 8 → Bool
  no_rapl_core : Bool
  rapl_prev_energy : Fin 2 → Nat
  rapl_prev_time : Fin 2 → Int
  rapl_available : Fin 2 → Bool
  rapl_energy_unit : Nat
  rapl_initialized : Bool

/-- What the hardware answers during one call of the driver:
`smn node address` is the `u32` stored by `read_amdsmn_addr`,
`rdmsr msr` is the error code returned and the `u64` stored by `rdmsrq_safe`,
`ktime` is the value of `ktime_get()` in nanoseconds. -/
structure Hw where
  smn : Nat → Nat → Nat
  rdmsr : Nat → Int × Nat
  ktime : Int

/-- The sensor kinds of `enum hwmon_sensor_types`. -/
inductive hwmon_sensor_types where
  | hwmon_chip
  | hwmon_temp
  | hwmon_in
  | hwmon_curr
  | hwmon_power
  | hwmon_energy
  | hwmon_humidity
  | hwmon_fan
  | hwmon_pwm
  | hwmon_intrusion
  deriving DecidableEq, Repr

/-- The numeric values of the attribute enumerators of the kernel header
`linux/hwmon.h` the driver uses; the header is not part of the driver, so the
values are a parameter of the embedding. -/
structure hwmon_attr_ids where
  hwmon_temp_input : Nat
  hwmon_temp_max : Nat
  hwmon_in_input : Nat
  hwmon_curr_input : Nat
  hwmon_power_input : Nat
  deriving DecidableEq, Repr

/-- The enumerator values of `linux/hwmon.h` in current kernels. -/
def linux_hwmon_attr_ids : hwmon_attr_ids :=
  { hwmon_temp_input := 1, hwmon_temp_max := 7, hwmon_in_input := 1,
    hwmon_curr_input := 1, hwmon_power_input := 9 }

def EAGAIN : Int := 11
def ENODEV : Int := 19
def EOPNOTSUPP : Int := 95

/-- Result of a read callback: the returned code, the value stored through
`val` (`none` when nothing was stored) and the state afterwards. -/
structure ReadOut where
  ret : Int
  val : Option Int
  data : zenpower_data

/-! ## Temperature backend (`zenpower_temp.c`) -/

/-- The function `zenpower_temp_get_ctl`; the result is an `unsigned int`. -/
def zenpower_temp_get_ctl (hw : Hw) (data : zenpower_data) : Nat :=
  let regval := hw.smn data.node_id F17H_M01H_REPORTED_TEMP_CTRL
  let temp := wrap_u32 ((regval >>> 21) * 125)
  if regval &&& F17H_TEMP_ADJUST_MASK ≠ 0 then
    int_to_u32 ((temp : Int) - 49000)
  else temp

/-- The function `zenpower_temp_get_ccd`; the result is an `unsigned int`. -/
def zenpower_temp_get_ccd (hw : Hw) (data : zenpower_data) (ccd_addr : Nat) : Nat :=
  let regval := hw.smn data.node_id ccd_addr
  if regval &&& ZEN_CCD_TEMP_VALID = 0 then 0
  else int_to_u32 ((wrap_u32 ((regval &&& ZEN_CCD_TEMP_MASK) * 125) : Int) - 49000)

/-! ## SVI2 backend (`zenpower_svi2.c`) -/

/-- The function `zenpower_svi2_plane_to_vcc`. -/
def zenpower_svi2_plane_to_vcc (plane : Nat) : Nat :=
  let vdd_cor := (plane >>> 16) &&& 0xff
  let v : Int := int_to_s32 (1550 - int_to_s32 ((wrap_u32 (625 * vdd_cor) / 100 : Nat) : Int))
  let v : Int := if v < 0 then 0 else if v > 2000 then 2000 else v
  int_to_u32 v

/-- The function `zenpower_svi2_get_core_current`. -/
def zenpower_svi2_get_core_current (plane : Nat) (zen2 : Bool) : Nat :=
  let idd_cor := plane &&& 0xff
  let fc := if zen2 then 658823 else 1039211
  wrap_u32 (fc * idd_cor) / 1000

/-- The function `zenpower_svi2_get_soc_current`. -/
def zenpower_svi2_get_soc_current (plane : Nat) (zen2 : Bool) : Nat :=
  let idd_cor := plane &&& 0xff
  let fc := if zen2 then 294300 else 360772
  wrap_u32 (fc * idd_cor) / 1000

/-! ## RAPL backend (`zenpower_rapl.c`) -/

def MSR_AMD_RAPL_POWER_UNIT : Nat := 0xc0010299
def MSR_AMD_PKG_ENERGY_STATUS : Nat := 0xc001029b
def MSR_AMD_PP0_ENERGY_STATUS : Nat := 0xc001029a

/-- Conversion of an integer to `s64` (two's complement, 64 bits). -/
def int_to_s64 (v : Int) : Int :=
  if v % 2 ^ 64 < 2 ^ 63 then v % 2 ^ 64 else v % 2 ^ 64 - 2 ^ 64

/-- The kernel helper `ktime_to_ms`: signed division by `NSEC_PER_MSEC`,
rounding towards zero. -/
def ktime_to_ms (kt : Int) : Int := Int.tdiv kt 1000000

/-- The rollover block of `zenpower_rapl_read_power`: the value of
`energy_delta` computed from the stored baseline and `energy_now`, both
`u64`. -/
def rapl_energy_delta (prev_energy energy_now : Nat) : Nat :=
  if energy_now ≥ prev_energy then
    wrap_u64 (energy_now - prev_energy)
  else
    wrap_u64 (wrap_u64 (0x100000000 + 2 ^ 64 - prev_energy) + energy_now)

/-- The function `zenpower_rapl_read_power`; `none` stands for an access
outside the two-element arrays (a channel other than 0 and 1). -/
def zenpower_rapl_read_power (hw : Hw) (data : zenpower_data) (channel : Int) :
    Option ReadOut :=
  if data.rapl_initialized = false then
    some { ret := -EAGAIN, val := none, data := data }
  else
    let msr := if channel = 0 then MSR_AMD_PKG_ENERGY_STATUS
      else MSR_AMD_PP0_ENERGY_STATUS
    let err := (hw.rdmsr msr).1
    let energy_now := (hw.rdmsr msr).2
    if err ≠ 0 then
      some { ret := err, val := none, data := data }
    else
      let time_now := hw.ktime
      match array_get? data.rapl_prev_energy channel,
          array_get? data.rapl_prev_time channel with
      | some prev_energy, some prev_time =>
        let energy_delta := rapl_energy_delta prev_energy energy_now
        let time_delta_ns := int_to_s64 (time_now - prev_time)
        let time_delta_ms := int_to_u32 (ktime_to_ms time_delta_ns)
        if time_delta_ms = 0 then
          some { ret := -EAGAIN, val := none, data := data }
        else
          some { ret := 0,
                 val := some (u64_to_long
                   (wrap_u64 (wrap_u64 (energy_delta * data.rapl_energy_unit) * 1000)
                     / time_delta_ms)),
                 data := { data with
                   rapl_prev_energy := array_set data.rapl_prev_energy channel energy_now,
                   rapl_prev_time := array_set data.rapl_prev_time channel time_now } }
      | _, _ => none

/-! ## Read callback (`zenpower_core.c`) -/

/-- The part of `zenpower_read` shared by voltage, current and power, from the
attribute test to the end of the function; `channel` is the channel after the
voltage case has subtracted one. -/
def zenpower_read_plane (A : hwmon_attr_ids) (hw : Hw) (data : zenpower_data)
    (type : hwmon_sensor_types) (attr : Nat) (channel : Int) : Option ReadOut :=
  if attr ≠ A.hwmon_in_input ∧ attr ≠ A.hwmon_curr_input ∧
      attr ≠ A.hwmon_power_input then
    some { ret := -EOPNOTSUPP, val := none, data := data }
  else if type = hwmon_sensor_types.hwmon_power ∧ data.zen5 = true then
    zenpower_rapl_read_power hw data channel
  else
    let plane? : Option Nat :=
      if channel = 0 then some (hw.smn data.node_id data.svi_core_addr)
      else if channel = 1 then some (hw.smn data.node_id data.svi_soc_addr)
      else none
    match plane? with
    | none => some { ret := -EOPNOTSUPP, val := none, data := data }
    | some plane =>
      match type with
      | hwmon_sensor_types.hwmon_in =>
        some { ret := 0, val := some (u32_to_long (zenpower_svi2_plane_to_vcc plane)),
               data := data }
      | hwmon_sensor_types.hwmon_curr =>
        some { ret := 0,
               val := some (u32_to_long
                 (if channel = 0 then zenpower_svi2_get_core_current plane data.zen2
                  else zenpower_svi2_get_soc_current plane data.zen2)),
               data := data }
      | hwmon_sensor_types.hwmon_power =>
        some { ret := 0,
               val := some (u32_to_long
                 (if channel = 0 then
                    wrap_u32 (zenpower_svi2_get_core_current plane data.zen2 *
                      zenpower_svi2_plane_to_vcc plane)
                  else
                    wrap_u32 (zenpower_svi2_get_soc_current plane data.zen2 *
                      zenpower_svi2_plane_to_vcc plane))),
               data := data }
      | _ => some { ret := 0, val := none, data := data }

/-- The function `zenpower_read`.  The difference
`zenpower_temp_get_ctl(data) - data->temp_offset` is taken in `unsigned int`,
and every `unsigned int` result is stored into the `long` behind `val`. -/
def zenpower_read (A : hwmon_attr_ids) (hw : Hw) (data : zenpower_data)
    (type : hwmon_sensor_types) (attr : Nat) (channel : Int) : Option ReadOut :=
  match type with
  | hwmon_sensor_types.hwmon_temp =>
    if attr = A.hwmon_temp_input then
      if channel = 0 then
        some { ret := 0,
               val := some (u32_to_long
                 (int_to_u32 ((zenpower_temp_get_ctl hw data : Int) - data.temp_offset))),
               data := data }
      else if channel = 1 then
        some { ret := 0, val := some (u32_to_long (zenpower_temp_get_ctl hw data)),
               data := data }
      else if 2 ≤ channel ∧ channel ≤ 9 then
        if data.zen5 = true then
          some { ret := 0,
                 val := some (u32_to_long (zenpower_temp_get_ccd hw data
                   (int_to_u32 (F1AH_M70H_CCD_TEMP (channel - 2))))),
                 data := data }
        else
          some { ret := 0,
                 val := some (u32_to_long (zenpower_temp_get_ccd hw data
                   (int_to_u32 (F17H_M70H_CCD_TEMP (channel - 2))))),
                 data := data }
      else some { ret := -EOPNOTSUPP, val := none, data := data }
    else if attr = A.hwmon_temp_max then
      some { ret := 0, val := some (95 * 1000), data := data }
    else some { ret := -EOPNOTSUPP, val := none, data := data }
  | hwmon_sensor_types.hwmon_in =>
    if channel = 0 then some { ret := -EOPNOTSUPP, val := none, data := data }
    else zenpower_read_plane A hw data type attr (channel - 1)
  | hwmon_sensor_types.hwmon_curr => zenpower_read_plane A hw data type attr channel
  | hwmon_sensor_types.hwmon_power => zenpower_read_plane A hw data type attr channel
  | _ => some { ret := -EOPNOTSUPP, val := none, data := data }

/-! ## RAPL initialisation (`zenpower_rapl.c`) -/

def RAPL_ENERGY_UNIT_MASK : Nat := 0x1f00
def RAPL_ENERGY_UNIT_SHIFT : Nat := 8

/-- The function `zenpower_rapl_init`: the returned code and the state at
return.  `rdmsrq_safe` stores into its target also when it reports an error,
so a failed baseline read still overwrites `rapl_prev_energy`. -/
def zenpower_rapl_init (hw : Hw) (data : zenpower_data) : Int × zenpower_data :=
  let err := (hw.rdmsr MSR_AMD_RAPL_POWER_UNIT).1
  let val := (hw.rdmsr MSR_AMD_RAPL_POWER_UNIT).2
  if err ≠ 0 then (err, data)
  else
    let energy_unit := wrap_u32 ((val &&& RAPL_ENERGY_UNIT_MASK) >>> RAPL_ENERGY_UNIT_SHIFT)
    let data := { data with rapl_energy_unit := wrap_u32 (1000000 >>> energy_unit) }
    let err := (hw.rdmsr MSR_AMD_PKG_ENERGY_STATUS).1
    let data := { data with
      rapl_prev_energy :=
        array_set data.rapl_prev_energy 0 (hw.rdmsr MSR_AMD_PKG_ENERGY_STATUS).2 }
    if err ≠ 0 then (err, data)
    else
      let data := { data with rapl_available := array_set data.rapl_available 0 true }
      let err := (hw.rdmsr MSR_AMD_PP0_ENERGY_STATUS).1
      let data := { data with
        rapl_prev_energy :=
          array_set data.rapl_prev_energy 1 (hw.rdmsr MSR_AMD_PP0_ENERGY_STATUS).2 }
      let data :=
        if err ≠ 0 then
          { data with rapl_available := array_set data.rapl_available 1 false }
        else
          { data with rapl_available := array_set data.rapl_available 1 true }
      let data := { data with rapl_prev_time := array_set data.rapl_prev_time 0 hw.ktime }
      let data := { data with
        rapl_prev_time := array_set data.rapl_prev_time 1 (data.rapl_prev_time 0) }
      (0, { data with rapl_initialized := true })

/-! ## Visibility callback (`zenpower_core.c`) -/

/-- The function `zenpower_is_visible`: the mode `0` or `0444`; `none` stands
for a read outside `ccd_visible` (a temperature channel above 9). -/
def zenpower_is_visible (data : zenpower_data) (type : hwmon_sensor_types)
    (_attr : Nat) (channel : Int) : Option Nat :=
  match type with
  | hwmon_sensor_types.hwmon_temp =>
    if channel ≥ 2 then
      match array_get? data.ccd_visible (channel - 2) with
      | none => none
      | some visible => if visible = false then some 0 else some 0o444
    else some 0o444
  | hwmon_sensor_types.hwmon_curr =>
    if data.zen5 = true then some 0
    else if data.amps_visible = false then some 0
    else if channel = 0 ∧ data.svi_core_addr = 0 then some 0
    else if channel = 1 ∧ data.svi_soc_addr = 0 then some 0
    else some 0o444
  | hwmon_sensor_types.hwmon_power =>
    if data.amps_visible = false then some 0
    else if channel = 0 ∧ data.svi_core_addr = 0 then some 0
    else if channel = 1 ∧ data.svi_soc_addr = 0 then some 0
    else if data.no_rapl_core = true ∧ channel = 1 then some 0
    else some 0o444
  | hwmon_sensor_types.hwmon_in =>
    if channel = 0 then some 0
    else if data.zen5 = true then some 0
    else if channel = 1 ∧ data.svi_core_addr = 0 then some 0
    else if channel = 2 ∧ data.svi_soc_addr = 0 then some 0
    else some 0o444
  | _ => some 0o444

/-! ## Probe (`zenpower_core.c`) -/

def ENOMEM : Int := 12

/-- What `zenpower_probe` obtains from outside the driver: whether the
allocation succeeds, the node id of the device when it matches a northbridge
of the kernel table (`none` when no entry matches), the value of
`cpuid_ecx(0x8000001E)`, the fields of `boot_cpu_data`, the module parameter
`zen1_calc`, the global `multicpu` at entry, the hardware snapshot and the
value of `PTR_ERR_OR_ZERO` of the registration. -/
structure ProbeEnv where
  alloc_ok : Bool
  nb_node_id : Option Nat
  cpuid_ecx : Nat
  x86 : Nat
  x86_model : Nat
  x86_model_id : String
  zen1_calc : Bool
  multicpu : Bool
  hw : Hw
  register_ret : Int

/-- Result of `zenpower_probe`: the returned code, the allocated state at
return (`none` when the allocation failed), the global `multicpu` and whether
the registration with the monitoring framework was called. -/
structure ProbeOut where
  ret : Int
  data : Option zenpower_data
  multicpu : Bool
  registered : Bool

/-- The memory returned by `devm_kzalloc`: every field zero. -/
def kzalloc_data : zenpower_data :=
  { svi_core_addr := 0, svi_soc_addr := 0, node_id := 0, cpu_id := 0,
    nodes_per_cpu := 0, temp_offset := 0, zen2 := false, zen5 := false,
    kernel_smn_support := false, amps_visible := false,
    ccd_visible := fun _ => false, no_rapl_core := false,
    rapl_prev_energy := fun _ => 0, rapl_prev_time := fun _ => 0,
    rapl_available := fun _ => false, rapl_energy_unit := 0,
    rapl_initialized := false }

/-- The libc function `strstr` as a test: does `needle` occur in `haystack`. -/
def strstr (haystack needle : String) : Bool :=
  haystack.data.tails.any (fun t => needle.data.isPrefixOf t)

/-- The local `node_of_cpu` of `zenpower_probe`, a `u8`. -/
def probe_node_of_cpu (node_id nodes_per_cpu : Nat) : Nat :=
  (node_id % nodes_per_cpu) % 2 ^ 8

/-- The first part of `zenpower_probe`, from the defaults to the computation
of `cpu_id`: the state before the configuration lookup. -/
def probe_topology (env : ProbeEnv) : zenpower_data :=
  let data : zenpower_data :=
    { kzalloc_data with
      zen2 := false, temp_offset := 0, kernel_smn_support := false,
      svi_core_addr := 0, svi_soc_addr := 0, amps_visible := false,
      no_rapl_core := false, node_id := 0, ccd_visible := fun _ => false }
  let data :=
    match env.nb_node_id with
    | some id => { data with kernel_smn_support := true, node_id := id % 2 ^ 16 }
    | none => data
  let data := { data with nodes_per_cpu := (1 + ((env.cpuid_ecx >>> 8) &&& 0b111)) % 2 ^ 8 }
  { data with cpu_id := (data.node_id / data.nodes_per_cpu) % 2 ^ 8 }

/-- The block of `zenpower_probe` under "Apply base configuration from
table" and the three flag tests after it: each flag test sets its field to
true and otherwise leaves it. -/
def probe_apply_flags (env : ProbeEnv) (config : zenpower_model_config)
    (data : zenpower_data) : zenpower_data :=
  { data with
    svi_core_addr := config.svi_core_addr,
    svi_soc_addr := config.svi_soc_addr,
    amps_visible := true,
    zen2 :=
      if config.flags &&& ZEN_CFG_ZEN2_CALC ≠ 0 ∧ env.zen1_calc = false then true
      else data.zen2,
    zen5 := if config.flags &&& ZEN_CFG_IS_ZEN5 ≠ 0 then true else data.zen5,
    no_rapl_core :=
      if config.flags &&& ZEN_CFG_NO_RAPL_CORE ≠ 0 then true else data.no_rapl_core }

/-- The block of `zenpower_probe` under "Handle Zen5 RAPL initialization": a
failed initialisation only clears `amps_visible`. -/
def probe_apply_rapl (env : ProbeEnv) (config : zenpower_model_config)
    (data : zenpower_data) : zenpower_data :=
  if config.flags &&& ZEN_CFG_RAPL ≠ 0 then
    if (zenpower_rapl_init env.hw data).1 ≠ 0 then
      { (zenpower_rapl_init env.hw data).2 with amps_visible := false }
    else (zenpower_rapl_init env.hw data).2
  else data

/-- The block of `zenpower_probe` under "Handle multinode configuration", with
the locals `multinode` and `node_of_cpu` computed before the lookup. -/
def probe_apply_multinode (config : zenpower_model_config) (multinode : Bool)
    (node_of_cpu : Nat) (data : zenpower_data) : zenpower_data :=
  if config.flags &&& ZEN_CFG_MULTINODE ≠ 0 then
    if multinode = true ∧ node_of_cpu = 0 then
      { data with svi_soc_addr := config.svi_core_addr, svi_core_addr := 0 }
    else if multinode = true ∧ node_of_cpu = 1 then
      { data with svi_core_addr := config.svi_core_addr, svi_soc_addr := 0 }
    else data
  else data

/-- The part of `zenpower_probe` that applies the configuration entry found:
base addresses and flags, RAPL initialisation, multinode rule. -/
def probe_apply_config (env : ProbeEnv) (config : zenpower_model_config)
    (data : zenpower_data) : zenpower_data :=
  let multinode := decide (data.nodes_per_cpu > 1)
  let node_of_cpu := probe_node_of_cpu data.node_id data.nodes_per_cpu
  probe_apply_multinode config multinode node_of_cpu
    (probe_apply_rapl env config (probe_apply_flags env config data))

/-- The die-complex loop of `zenpower_probe`, with `remaining` iterations left
and the loop variable at `i`; `none` stands for a write outside
`ccd_visible`. -/
def probe_ccd_loop (hw : Hw) : Nat → Nat → zenpower_data → Option zenpower_data
  | 0, _, data => some data
  | remaining + 1, i, data =>
    let ccd_addr := int_to_u32
      (if data.zen5 = true then F1AH_M70H_CCD_TEMP i else F17H_M70H_CCD_TEMP i)
    let val := hw.smn data.node_id ccd_addr
    if val &&& 2 ^ 11 ≠ 0 then
      if i < 8 then
        probe_ccd_loop hw remaining (i + 1)
          { data with ccd_visible := array_set data.ccd_visible i true }
      else none
    else probe_ccd_loop hw remaining (i + 1) data

/-- The offset loop of `zenpower_probe`: the first row of `tctl_offset_table`
whose family equals `boot_cpu_data.x86` and whose name occurs in the model
name sets `temp_offset`. -/
def probe_temp_offset (env : ProbeEnv) (data : zenpower_data) : zenpower_data :=
  match tctl_offset_table.find?
      (fun entry => decide (env.x86 = entry.model) && strstr env.x86_model_id entry.id) with
  | some entry => { data with temp_offset := entry.offset }
  | none => data

/-- The function `zenpower_probe`; `none` stands for a write outside
`ccd_visible` in the die-complex loop. -/
def zenpower_probe (env : ProbeEnv) : Option ProbeOut :=
  if env.alloc_ok = false then
    some { ret := -ENOMEM, data := none, multicpu := env.multicpu, registered := false }
  else
    let data := probe_topology env
    let multicpu := if data.cpu_id > 0 then true else env.multicpu
    let family := env.x86 % 2 ^ 8
    let model := env.x86_model % 2 ^ 8
    match lookup_model_config family model with
    | none =>
      some { ret := -ENODEV, data := some data, multicpu := multicpu, registered := false }
    | some config =>
      let ccd_check := config.num_ccds
      let data := probe_apply_config env config data
      match probe_ccd_loop env.hw ccd_check 0 data with
      | none => none
      | some data =>
        let data := probe_temp_offset env data
        some { ret := env.register_ret, data := some data, multicpu := multicpu,
               registered := true }

/-! ## The conversions in the words of the specification -/

/-- The voltage rule as the specification words it:
`clamp(1550 − round(6.25 × field), 0, 2000)` with `field` the bits 23:16,
where `round` is rounding to the nearest integer. -/
def spec_voltage_round (plane : Nat) : Int :=
  max 0 (min 2000 (1550 - round ((6.25 : ℚ) * (((plane >>> 16) &&& 0xff : Nat) : ℚ))))

/-- The voltage rule with the product rounded down instead:
`clamp(1550 − floor(6.25 × field), 0, 2000)`. -/
def spec_voltage_floor (plane : Nat) : Int :=
  max 0 (min 2000 (1550 - Int.floor ((6.25 : ℚ) * (((plane >>> 16) &&& 0xff : Nat) : ℚ))))

/-! ## Sample inputs -/

/-- A hardware snapshot in which every telemetry register holds `r`, every
MSR read succeeds with value `0` and the clock reads `0`. -/
def hw_const (r : Nat) : Hw :=
  { smn := fun _ _ => r, rdmsr := fun _ => (0, 0), ktime := 0 }

/-- The state of a node of a single-node CPU before any configuration is
applied: the defaults set at the start of `zenpower_probe`. -/
def blank_data : zenpower_data :=
  { svi_core_addr := 0, svi_soc_addr := 0, node_id := 0, cpu_id := 0,
    nodes_per_cpu := 1, temp_offset := 0, zen2 := false, zen5 := false,
    kernel_smn_support := false, amps_visible := false,
    ccd_visible := fun _ => false, no_rapl_core := false,
    rapl_prev_energy := fun _ => 0, rapl_prev_time := fun _ => 0,
    rapl_available := fun _ => false, rapl_energy_unit := 0,
    rapl_initialized := false }

/-- A hardware snapshot for the energy counters: every MSR read succeeds with
value `energy` and the clock reads `ktime`. -/
def hw_rapl (energy : Nat) (ktime : Int) : Hw :=
  { smn := fun _ _ => 0, rdmsr := fun _ => (0, energy), ktime := ktime }

/-- An initialised tracker with the given unit scale and both baselines zero
at time zero. -/
def rapl_ready_data (energy_unit : Nat) : zenpower_data :=
  { blank_data with
    rapl_energy_unit := energy_unit, rapl_available := fun _ => true,
    rapl_initialized := true }

/-- A probe environment with the given CPU identity, identification word and
node id, a clean registration and a model name without an offset row. -/
def probe_env (x86 x86_model cpuid_ecx : Nat) (nb_node_id : Option Nat) (hw : Hw) :
    ProbeEnv :=
  { alloc_ok := true, nb_node_id := nb_node_id, cpuid_ecx := cpuid_ecx, x86 := x86,
    x86_model := x86_model, x86_model_id := "AMD Eng Sample", zen1_calc := false,
    multicpu := false, hw := hw, register_ret := 0 }

/-- A configured state with the given generation flag and telemetry addresses
and with the telemetry channels enabled. -/
def telemetry_data (zen5 : Bool) (svi_core_addr svi_soc_addr : Nat) : zenpower_data :=
  { blank_data with
    zen5 := zen5, amps_visible := true, svi_core_addr := svi_core_addr,
    svi_soc_addr := svi_soc_addr }

/-- A hardware snapshot in which the package energy counter cannot be read
(error -5) and every other MSR reads 0. -/
def hw_pkg_fail : Hw :=
  { smn := fun _ _ => 0,
    rdmsr := fun msr => if msr = MSR_AMD_PKG_ENERGY_STATUS then (-5, 0) else (0, 0),
    ktime := 0 }

/-- The sensor channels declared in `zenpower_info`: temperature input on
channels 0..9, temperature max on channel 0, voltage input on channels 1..2,
current input on channels 0..1, power input on channels 0..1. -/
def declared_channel (A : hwmon_attr_ids) (type : hwmon_sensor_types) (attr : Nat)
    (channel : Int) : Prop :=
  (type = hwmon_sensor_types.hwmon_temp ∧ attr = A.hwmon_temp_input ∧
    0 ≤ channel ∧ channel ≤ 9) ∨
  (type = hwmon_sensor_types.hwmon_temp ∧ attr = A.hwmon_temp_max ∧ channel = 0) ∨
  (type = hwmon_sensor_types.hwmon_in ∧ attr = A.hwmon_in_input ∧
    1 ≤ channel ∧ channel ≤ 2) ∨
  (type = hwmon_sensor_types.hwmon_curr ∧ attr = A.hwmon_curr_input ∧
    0 ≤ channel ∧ channel ≤ 1) ∨
  (type = hwmon_sensor_types.hwmon_power ∧ attr = A.hwmon_power_input ∧
    0 ≤ channel ∧ channel ≤ 1)

/-! ## Model lookup -/

theorem lookup_from_none (l : List zenpower_model_config) (family model : Nat)
    (h : ∀ e ∈ l, e.family ≠ 0 → ¬ (e.family = family ∧ e.model = model)) :
    lookup_from l family model = none := by
  induction l with
  | nil => rfl
  | cons cfg rest ih =>
    unfold lookup_from
    by_cases h0 : cfg.family = 0
    · simp [h0]
    · have hm := h cfg (List.mem_cons_self _ _) h0
      rw [if_neg h0, if_neg hm]
      exact ih (fun e he => h e (List.mem_cons_of_mem _ he))

/-- C1: for every (family, model) pair of an entry of the configuration table
(the entries before the sentinel) `lookup_model_config` returns exactly that
entry; for every pair that is the pair of no entry it returns `NULL`, and so
it does for every pair with family 0. -/
theorem lookup_model_config_total :
    (∀ e ∈ model_configs, e.family ≠ 0 →
      lookup_model_config e.family e.model = some e) ∧
    (∀ family model : Nat,
      (∀ e ∈ model_configs, e.family ≠ 0 → ¬ (e.family = family ∧ e.model = model)) →
      lookup_model_config family model = none) ∧
    (∀ model : Nat, lookup_model_config 0 model = none) := by
  refine ⟨?_, ?_, ?_⟩
  · intro e he hne
    simp only [model_configs, List.mem_cons, List.mem_singleton, List.not_mem_nil,
      or_false] at he
    rcases he with rfl | rfl | rfl | rfl | rfl | rfl | rfl | rfl | rfl | rfl | rfl | rfl | rfl
    all_goals first
      | rfl
      | exact absurd rfl hne
  · intro family model h
    exact lookup_from_none model_configs family model h
  · intro model
    apply lookup_from_none
    intro e _ hne hm
    exact hne hm.1

/-- Instance of C1: the pair (1Ah, 70h) finds the twelfth entry, the pair (17h, 02h) is not found. -/
theorem lookup_model_config_total_witness :
    lookup_model_config 0x1a 0x70 = model_configs[11]? ∧
    lookup_model_config 0x17 0x02 = none :=
  ⟨lookup_model_config_total.1 (model_configs.get ⟨11, by decide⟩)
      (List.get_mem _ _ _) (by decide),
   lookup_model_config_total.2.1 0x17 0x02 (by decide)⟩

/-! ## Temperature channels -/

theorem temp_get_ctl_const_adjusted (data : zenpower_data) :
    zenpower_temp_get_ctl (hw_const 0x00280000) data = 4294918421 := by
  simp only [zenpower_temp_get_ctl, hw_const, F17H_TEMP_ADJUST_MASK, wrap_u32, int_to_u32]
  decide

theorem temp_get_ctl_const_zero (data : zenpower_data) :
    zenpower_temp_get_ctl (hw_const 0) data = 0 := by
  simp only [zenpower_temp_get_ctl, hw_const, F17H_TEMP_ADJUST_MASK, wrap_u32, int_to_u32]
  decide

theorem temp_get_ccd_const_valid_zero (data : zenpower_data) (ccd_addr : Nat) :
    zenpower_temp_get_ccd (hw_const 0x800) data ccd_addr = 4294918296 := by
  simp only [zenpower_temp_get_ccd, hw_const, ZEN_CCD_TEMP_VALID, ZEN_CCD_TEMP_MASK,
    wrap_u32, int_to_u32]
  decide

/-- C2: with the raw control-temperature value `0x00280000` (bit 21 and the
adjust bit set) `zenpower_temp_get_ctl` returns the unsigned value
`4294918421 = 2^32 - 48875`, and the Tctl channel of `zenpower_read` stores
that positive number into the 64-bit `val`, not `-48875`. -/
theorem tctl_adjusted_reads_wrapped (A : hwmon_attr_ids) (data : zenpower_data) :
    zenpower_temp_get_ctl (hw_const 0x00280000) data = 4294918421 ∧
    zenpower_read A (hw_const 0x00280000) data hwmon_sensor_types.hwmon_temp
        A.hwmon_temp_input 1 =
      some { ret := 0, val := some 4294918421, data := data } ∧
    (4294918421 : Int) ≠ ((0x00280000 >>> 21 : Nat) : Int) * 125 - 49000 := by
  refine ⟨temp_get_ctl_const_adjusted data, ?_, by decide⟩
  simp only [zenpower_read, if_true, temp_get_ctl_const_adjusted]
  rfl

/-- C3: with the raw die-complex value `0x800` (bit 11 set, field 0)
`zenpower_temp_get_ccd` returns the unsigned value
`4294918296 = 2^32 - 49000`, and the Tccd1 channel of `zenpower_read` stores
that positive number into the 64-bit `val`, not `-49000`. -/
theorem tccd_below_zero_reads_wrapped (A : hwmon_attr_ids) (data : zenpower_data)
    (ccd_addr : Nat) :
    zenpower_temp_get_ccd (hw_const 0x800) data ccd_addr = 4294918296 ∧
    zenpower_read A (hw_const 0x800) data hwmon_sensor_types.hwmon_temp
        A.hwmon_temp_input 2 =
      some { ret := 0, val := some 4294918296, data := data } ∧
    (4294918296 : Int) ≠ ((0x800 &&& 0x7FF : Nat) : Int) * 125 - 49000 := by
  refine ⟨temp_get_ccd_const_valid_zero data ccd_addr, ?_, by decide⟩
  simp only [zenpower_read, if_true, temp_get_ccd_const_valid_zero]
  cases data.zen5 <;> rfl

/-- C4 (as stated, refuted): a die-complex register value with bit 11 clear
(`0x7ff`) read through temperature channel 2 is a successful read that stores
the number zero. -/
theorem tccd_invalid_is_surfaced_as_zero :
    zenpower_read linux_hwmon_attr_ids (hw_const 0x7ff) blank_data
        hwmon_sensor_types.hwmon_temp linux_hwmon_attr_ids.hwmon_temp_input 2 =
      some { ret := 0, val := some 0, data := blank_data } := by
  simp only [zenpower_read, if_true, zenpower_temp_get_ccd, hw_const, ZEN_CCD_TEMP_VALID]
  rfl

/-- C4 (amended): for every raw die-complex register value with bit 11 clear,
whatever its other bits, `zenpower_temp_get_ccd` returns 0 and temperature
input channels 2..9 of `zenpower_read` succeed, store the value 0 and leave
the state unchanged. -/
theorem tccd_invalid_reads_zero (A : hwmon_attr_ids) (hw : Hw) (data : zenpower_data)
    (channel : Int) (h2 : 2 ≤ channel) (h9 : channel ≤ 9)
    (hclear : hw.smn data.node_id
        (int_to_u32 (if data.zen5 = true then F1AH_M70H_CCD_TEMP (channel - 2)
          else F17H_M70H_CCD_TEMP (channel - 2))) &&& ZEN_CCD_TEMP_VALID = 0) :
    zenpower_temp_get_ccd hw data
        (int_to_u32 (if data.zen5 = true then F1AH_M70H_CCD_TEMP (channel - 2)
          else F17H_M70H_CCD_TEMP (channel - 2))) = 0 ∧
    zenpower_read A hw data hwmon_sensor_types.hwmon_temp A.hwmon_temp_input channel =
      some { ret := 0, val := some 0, data := data } := by
  have hget : zenpower_temp_get_ccd hw data
      (int_to_u32 (if data.zen5 = true then F1AH_M70H_CCD_TEMP (channel - 2)
        else F17H_M70H_CCD_TEMP (channel - 2))) = 0 := by
    simp only [zenpower_temp_get_ccd, hclear, if_true]
  refine ⟨hget, ?_⟩
  have h0 : ¬ channel = 0 := by omega
  have h1 : ¬ channel = 1 := by omega
  have h29 : 2 ≤ channel ∧ channel ≤ 9 := ⟨h2, h9⟩
  simp only [zenpower_read, if_true, if_neg h0, if_neg h1, if_pos h29]
  by_cases hz : data.zen5 = true
  · rw [if_pos hz] at hget
    rw [if_pos hz, hget]
    rfl
  · rw [if_neg hz] at hget
    rw [if_neg hz, hget]
    rfl

/-- Instance of the amended C4 at the register value `0x7ff`, channel 2. -/
theorem tccd_invalid_reads_zero_witness :
    zenpower_temp_get_ccd (hw_const 0x7ff) blank_data
        (int_to_u32 (if blank_data.zen5 = true then F1AH_M70H_CCD_TEMP (2 - 2)
          else F17H_M70H_CCD_TEMP (2 - 2))) = 0 ∧
    zenpower_read linux_hwmon_attr_ids (hw_const 0x7ff) blank_data
        hwmon_sensor_types.hwmon_temp linux_hwmon_attr_ids.hwmon_temp_input 2 =
      some { ret := 0, val := some 0, data := blank_data } :=
  tccd_invalid_reads_zero linux_hwmon_attr_ids (hw_const 0x7ff) blank_data 2
    (by decide) (by decide) (by decide)

/-! ## Voltage -/

theorem plane_field_lt (plane : Nat) : (plane >>> 16) &&& 0xff < 256 :=
  Nat.and_lt_two_pow _ (by decide : (0xff : Nat) < 2 ^ 8)

theorem plane_low_field_lt (plane : Nat) : plane &&& 0xff < 256 :=
  Nat.and_lt_two_pow _ (by decide : (0xff : Nat) < 2 ^ 8)

theorem int_to_s32_of_small (v : Int) (h1 : -2 ^ 31 ≤ v) (h2 : v < 2 ^ 31) :
    int_to_s32 v = v := by
  unfold int_to_s32
  split_ifs <;> omega

theorem int_to_u32_of_nat (n : Nat) (h : n < 2 ^ 32) : int_to_u32 (n : Int) = n := by
  unfold int_to_u32
  omega

theorem plane_to_vcc_eq (plane : Nat) :
    zenpower_svi2_plane_to_vcc plane = 1550 - 625 * ((plane >>> 16) &&& 0xff) / 100 := by
  have hf := plane_field_lt plane
  unfold zenpower_svi2_plane_to_vcc
  generalize (plane >>> 16) &&& 0xff = f at hf ⊢
  have hw : wrap_u32 (625 * f) = 625 * f := by
    unfold wrap_u32
    omega
  obtain ⟨q, hq⟩ : ∃ q : Nat, q = 625 * f / 100 := ⟨_, rfl⟩
  have hq1 : q ≤ 1593 := by omega
  simp only [hw, ← hq]
  rw [int_to_s32_of_small (q : Int) (by omega) (by omega),
    int_to_s32_of_small (1550 - (q : Int)) (by omega) (by omega)]
  by_cases hneg : (1550 : Int) - q < 0
  · rw [if_pos hneg]
    have : 1550 - q = 0 := by omega
    rw [this]
    rfl
  · rw [if_neg hneg, if_neg (by omega)]
    have hcast : (1550 : Int) - q = ((1550 - q : Nat) : Int) := by omega
    rw [hcast, int_to_u32_of_nat _ (by omega)]

theorem floor_six_and_quarter (f : Nat) :
    Int.floor ((6.25 : ℚ) * (f : ℚ)) = ((625 * f / 100 : Nat) : Int) := by
  have h : (6.25 : ℚ) * (f : ℚ) = ((625 * f : Nat) : ℚ) / ((100 : Nat) : ℚ) := by
    push_cast
    ring
  rw [h, Rat.floor_natCast_div_natCast]
  norm_cast

theorem round_six_and_quarter_three : round ((6.25 : ℚ) * ((3 : Nat) : ℚ)) = 19 := by
  rw [round_eq, Int.floor_eq_iff]
  constructor <;> norm_num

/-- C5 (as stated, refuted): for the plane value `0x00030000` (field 3,
`6.25 × 3 = 18.75`) the driver returns 1532 mV, while the rule with rounding to
the nearest integer gives `1550 − 19 = 1531` mV. -/
theorem plane_to_vcc_not_rounded :
    zenpower_svi2_plane_to_vcc 0x00030000 = 1532 ∧
    spec_voltage_round 0x00030000 = 1531 ∧
    (zenpower_svi2_plane_to_vcc 0x00030000 : Int) ≠ spec_voltage_round 0x00030000 := by
  have hf : ((0x00030000 : Nat) >>> 16) &&& 0xff = 3 := by decide
  have hv : zenpower_svi2_plane_to_vcc 0x00030000 = 1532 := by
    rw [plane_to_vcc_eq, hf]
  have hs : spec_voltage_round 0x00030000 = 1531 := by
    unfold spec_voltage_round
    rw [hf, round_six_and_quarter_three]
    decide
  refine ⟨hv, hs, ?_⟩
  rw [hv, hs]
  decide

/-- C5 (amended): for every telemetry-plane value, with field = bits 23:16,
`zenpower_svi2_plane_to_vcc` returns
`clamp(1550 − floor(6.25 × field), 0, 2000)` millivolts: the product is
rounded down, not to the nearest integer. -/
theorem plane_to_vcc_floor (plane : Nat) :
    (zenpower_svi2_plane_to_vcc plane : Int) = spec_voltage_floor plane := by
  have hf := plane_field_lt plane
  unfold spec_voltage_floor
  rw [plane_to_vcc_eq, floor_six_and_quarter]
  generalize (plane >>> 16) &&& 0xff = f at hf ⊢
  omega

/-- C6: for every telemetry-plane value the voltage returned by
`zenpower_svi2_plane_to_vcc` is the exact, unwrapped value
`max(0, 1550 − (625 × field) / 100)` and lies in `[0, 2000]`; a plane whose
field (bits 23:16) is `0x00` yields 1550 mV and a plane whose field is `0xFF`
yields 0 mV. -/
theorem plane_to_vcc_range (plane : Nat) :
    (zenpower_svi2_plane_to_vcc plane : Int) =
      (max 0 ((1550 : Int) - ((625 * ((plane >>> 16) &&& 0xff) / 100 : Nat) : Int)) : Int) ∧
    0 ≤ zenpower_svi2_plane_to_vcc plane ∧
    zenpower_svi2_plane_to_vcc plane ≤ 2000 ∧
    ((plane >>> 16) &&& 0xff = 0x00 → zenpower_svi2_plane_to_vcc plane = 1550) ∧
    ((plane >>> 16) &&& 0xff = 0xFF → zenpower_svi2_plane_to_vcc plane = 0) := by
  have hf := plane_field_lt plane
  rw [plane_to_vcc_eq]
  generalize (plane >>> 16) &&& 0xff = f at hf ⊢
  refine ⟨by omega, by omega, by omega, ?_, ?_⟩
  · intro h
    subst h
    rfl
  · intro h
    subst h
    rfl

/-- Instance of C6 at planes with field `0x00` and field `0xFF`. -/
theorem plane_to_vcc_range_witness :
    zenpower_svi2_plane_to_vcc 0x12000034 = 1550 ∧
    zenpower_svi2_plane_to_vcc 0x12FF0034 = 0 :=
  ⟨(plane_to_vcc_range 0x12000034).2.2.2.1 (by decide),
   (plane_to_vcc_range 0x12FF0034).2.2.2.2 (by decide)⟩

/-! ## Current and power -/

theorem core_current_eq (plane : Nat) (zen2 : Bool) :
    zenpower_svi2_get_core_current plane zen2 =
      (if zen2 then 658823 else 1039211) * (plane &&& 0xff) / 1000 := by
  have hf := plane_low_field_lt plane
  unfold zenpower_svi2_get_core_current wrap_u32
  generalize plane &&& 0xff = f at hf ⊢
  cases zen2 <;> simp only [Bool.false_eq_true, if_false, if_true] <;> omega

theorem soc_current_eq (plane : Nat) (zen2 : Bool) :
    zenpower_svi2_get_soc_current plane zen2 =
      (if zen2 then 294300 else 360772) * (plane &&& 0xff) / 1000 := by
  have hf := plane_low_field_lt plane
  unfold zenpower_svi2_get_soc_current wrap_u32
  generalize plane &&& 0xff = f at hf ⊢
  cases zen2 <;> simp only [Bool.false_eq_true, if_false, if_true] <;> omega

theorem core_current_le (plane : Nat) (zen2 : Bool) :
    zenpower_svi2_get_core_current plane zen2 ≤ 264998 := by
  have hf := plane_low_field_lt plane
  rw [core_current_eq]
  generalize plane &&& 0xff = f at hf ⊢
  cases zen2 <;> simp only [Bool.false_eq_true, if_false, if_true] <;> omega

theorem soc_current_le (plane : Nat) (zen2 : Bool) :
    zenpower_svi2_get_soc_current plane zen2 ≤ 264998 := by
  have hf := plane_low_field_lt plane
  rw [soc_current_eq]
  generalize plane &&& 0xff = f at hf ⊢
  cases zen2 <;> simp only [Bool.false_eq_true, if_false, if_true] <;> omega

theorem plane_to_vcc_le (plane : Nat) : zenpower_svi2_plane_to_vcc plane ≤ 1550 := by
  rw [plane_to_vcc_eq]
  omega

theorem power_product_lt (c v : Nat) (hc : c ≤ 264998) (hv : v ≤ 1550) :
    c * v < 2 ^ 32 := by
  calc c * v ≤ 264998 * 1550 := Nat.mul_le_mul hc hv
    _ < 2 ^ 32 := by decide

theorem u32_to_long_wrap_of_lt (n : Nat) (h : n < 2 ^ 32) :
    u32_to_long (wrap_u32 n) = (n : Int) := by
  unfold u32_to_long wrap_u32
  omega

/-- C7: for every telemetry-plane value, with field = bits 7:0, the core
current is the exact quotient `(scale × field) / 1000` with scale 1,039,211
(first generation) or 658,823 (second-generation flag), the SoC current is
`(scale × field) / 1000` with scale 360,772 or 294,300; the products stay
below `2^32`, and core, first generation, field 100 yields 103,921 mA. -/
theorem svi2_current_exact (plane : Nat) (zen2 : Bool) :
    zenpower_svi2_get_core_current plane zen2 =
      (if zen2 then 658823 else 1039211) * (plane &&& 0xff) / 1000 ∧
    zenpower_svi2_get_soc_current plane zen2 =
      (if zen2 then 294300 else 360772) * (plane &&& 0xff) / 1000 ∧
    (if zen2 then 658823 else 1039211) * (plane &&& 0xff) < 2 ^ 32 ∧
    (if zen2 then 294300 else 360772) * (plane &&& 0xff) < 2 ^ 32 ∧
    (plane &&& 0xff = 100 → zenpower_svi2_get_core_current plane false = 103921) := by
  have hf := plane_low_field_lt plane
  refine ⟨core_current_eq plane zen2, soc_current_eq plane zen2, ?_, ?_, ?_⟩
  · generalize plane &&& 0xff = f at hf ⊢
    cases zen2 <;> simp only [Bool.false_eq_true, if_false, if_true] <;> omega
  · generalize plane &&& 0xff = f at hf ⊢
    cases zen2 <;> simp only [Bool.false_eq_true, if_false, if_true] <;> omega
  · intro h
    rw [core_current_eq, h]
    rfl

/-- Instance of C7 at a plane whose low byte is 100. -/
theorem svi2_current_exact_witness :
    zenpower_svi2_get_core_current 0xABCDEF64 false = 103921 :=
  (svi2_current_exact 0xABCDEF64 false).2.2.2.2 (by decide)

/-- C8: on hardware without energy counters (zen5 flag clear), for every
telemetry-plane value, the power read on channel 0 is the exact integer
product of the core current and the voltage decoded from the core plane, the
power read on channel 1 is the exact product of the SoC current and the
voltage decoded from the SoC plane, and both products stay below `2^32`. -/
theorem svi2_power_exact (A : hwmon_attr_ids) (hw : Hw) (data : zenpower_data)
    (hz : data.zen5 = false) :
    zenpower_read A hw data hwmon_sensor_types.hwmon_power A.hwmon_power_input 0 =
      some { ret := 0,
             val := some
               ((zenpower_svi2_get_core_current
                   (hw.smn data.node_id data.svi_core_addr) data.zen2 : Int) *
                 (zenpower_svi2_plane_to_vcc (hw.smn data.node_id data.svi_core_addr) : Int)),
             data := data } ∧
    zenpower_read A hw data hwmon_sensor_types.hwmon_power A.hwmon_power_input 1 =
      some { ret := 0,
             val := some
               ((zenpower_svi2_get_soc_current
                   (hw.smn data.node_id data.svi_soc_addr) data.zen2 : Int) *
                 (zenpower_svi2_plane_to_vcc (hw.smn data.node_id data.svi_soc_addr) : Int)),
             data := data } ∧
    zenpower_svi2_get_core_current (hw.smn data.node_id data.svi_core_addr) data.zen2 *
      zenpower_svi2_plane_to_vcc (hw.smn data.node_id data.svi_core_addr) < 2 ^ 32 ∧
    zenpower_svi2_get_soc_current (hw.smn data.node_id data.svi_soc_addr) data.zen2 *
      zenpower_svi2_plane_to_vcc (hw.smn data.node_id data.svi_soc_addr) < 2 ^ 32 := by
  have hcore := power_product_lt _ _
    (core_current_le (hw.smn data.node_id data.svi_core_addr) data.zen2)
    (plane_to_vcc_le (hw.smn data.node_id data.svi_core_addr))
  have hsoc := power_product_lt _ _
    (soc_current_le (hw.smn data.node_id data.svi_soc_addr) data.zen2)
    (plane_to_vcc_le (hw.smn data.node_id data.svi_soc_addr))
  refine ⟨?_, ?_, hcore, hsoc⟩
  · simp only [zenpower_read, zenpower_read_plane, ne_eq, not_true_eq_false, and_false,
      if_false, hz, Bool.false_eq_true, if_true, u32_to_long_wrap_of_lt _ hcore,
      Nat.cast_mul]
  · simp only [zenpower_read, zenpower_read_plane, ne_eq, not_true_eq_false, and_false,
      if_false, hz, Bool.false_eq_true, one_ne_zero, if_true,
      u32_to_long_wrap_of_lt _ hsoc, Nat.cast_mul]

/-- Instance of C8: field 100 and voltage field 0 on the core channel. -/
theorem svi2_power_exact_witness :
    (zenpower_read linux_hwmon_attr_ids (hw_const 0x00000064) blank_data
        hwmon_sensor_types.hwmon_power linux_hwmon_attr_ids.hwmon_power_input 0).map
      ReadOut.val = some (some (103921 * 1550)) := by
  rw [(svi2_power_exact linux_hwmon_attr_ids (hw_const 0x00000064) blank_data rfl).1]
  simp only [Option.map_some', hw_const, blank_data, core_current_eq, plane_to_vcc_eq]
  decide

/-! ## Die temperature -/

/-- C9: with the raw control-temperature value 0 and the offset 20000 of the
offset table, temperature channel 1 reports 0 and channel 0 reports
`4294947296 = 2^32 - 20000`, not `0 - 20000`: the difference is taken in
`unsigned int` and stored into the 64-bit `val` as a positive number. -/
theorem tdie_below_offset_reads_wrapped (A : hwmon_attr_ids) (data : zenpower_data) :
    (20000 : Int) ∈ selectable_offsets ∧
    zenpower_read A (hw_const 0) { data with temp_offset := 20000 }
        hwmon_sensor_types.hwmon_temp A.hwmon_temp_input 1 =
      some { ret := 0, val := some 0, data := { data with temp_offset := 20000 } } ∧
    zenpower_read A (hw_const 0) { data with temp_offset := 20000 }
        hwmon_sensor_types.hwmon_temp A.hwmon_temp_input 0 =
      some { ret := 0, val := some 4294947296,
             data := { data with temp_offset := 20000 } } ∧
    (4294947296 : Int) ≠ 0 - 20000 := by
  refine ⟨by decide, ?_, ?_, by decide⟩
  · simp only [zenpower_read, if_true, temp_get_ctl_const_zero]
    rfl
  · simp only [zenpower_read, if_true, temp_get_ctl_const_zero]
    rfl

/-! ## Energy counter rollover -/

/-- C10 (as stated, refuted): with the baseline `2^33` and the counter value
0, both of which fit the 64-bit registers, the computed energy delta is
`2^64 - 2^32`; the integer `(2^32 - previous) + current` is negative there,
so the subtraction has wrapped. -/
theorem rapl_energy_delta_wraps_above_32_bits :
    rapl_energy_delta (2 ^ 33) 0 = 2 ^ 64 - 2 ^ 32 ∧
    ((2 : Int) ^ 32 - 2 ^ 33) + 0 < 0 ∧
    (rapl_energy_delta (2 ^ 33) 0 : Int) ≠ ((2 : Int) ^ 32 - 2 ^ 33) + 0 := by
  have h : rapl_energy_delta (2 ^ 33) 0 = 2 ^ 64 - 2 ^ 32 := by
    simp only [rapl_energy_delta, wrap_u64]
    decide
  refine ⟨h, by decide, ?_⟩
  rw [h]
  decide

/-- C10 (amended): for every baseline and counter value held in the 64-bit
registers, if current >= previous the energy delta is current - previous;
otherwise, provided previous <= 2^32 + current (in particular whenever both
values are below 2^32), the delta is the non-negative integer
(2^32 - previous) + current; previous = 2^32 - 10 and current = 5 give 15. -/
theorem rapl_energy_delta_rollover (prev_energy energy_now : Nat)
    (hp : prev_energy < 2 ^ 64) (hn : energy_now < 2 ^ 64) :
    (energy_now ≥ prev_energy →
      rapl_energy_delta prev_energy energy_now = energy_now - prev_energy) ∧
    (energy_now < prev_energy → prev_energy ≤ 2 ^ 32 + energy_now →
      (rapl_energy_delta prev_energy energy_now : Int) =
        ((2 : Int) ^ 32 - prev_energy) + energy_now) ∧
    rapl_energy_delta (2 ^ 32 - 10) 5 = 15 := by
  refine ⟨?_, ?_, ?_⟩
  · intro h
    unfold rapl_energy_delta wrap_u64
    rw [if_pos h]
    omega
  · intro h hle
    unfold rapl_energy_delta wrap_u64
    rw [if_neg (by omega)]
    omega
  · simp only [rapl_energy_delta, wrap_u64]
    decide

/-- Instance of the amended C10 at previous = 2^32 - 10 and current = 5. -/
theorem rapl_energy_delta_rollover_witness :
    (rapl_energy_delta (2 ^ 32 - 10) 5 : Int) = ((2 : Int) ^ 32 - (2 ^ 32 - 10 : Nat)) + (5 : Nat) :=
  (rapl_energy_delta_rollover (2 ^ 32 - 10) 5 (by decide) (by decide)).2.1
    (by decide) (by decide)

/-! ## Energy counter tracker -/

theorem array_get?_fin {α : Type} {n : Nat} (a : Fin n → α) (c : Fin n) :
    array_get? a (c.val : Int) = some (a c) := by
  unfold array_get?
  have h : 0 ≤ (c.val : Int) ∧ (c.val : Int) < n := ⟨by omega, by have := c.isLt; omega⟩
  rw [dif_pos h]
  congr 2

theorem array_set_same {α : Type} {n : Nat} (a : Fin n → α) (c : Fin n) (v : α) :
    array_set a (c.val : Int) v c = v := by
  simp [array_set]

theorem array_set_other {α : Type} {n : Nat} (a : Fin n → α) (i : Int) (v : α)
    (j : Fin n) (h : (j.val : Int) ≠ i) : array_set a i v j = a j := by
  simp [array_set, h]

theorem ktime_to_ms_of_nonneg (kt : Int) (h : 0 ≤ kt) : ktime_to_ms kt = kt / 1000000 := by
  unfold ktime_to_ms
  exact Int.tdiv_eq_ediv h (by decide)

theorem ktime_to_ms_eq_zero_bound (kt : Int) (h : ktime_to_ms kt = 0) :
    -1000000 < kt ∧ kt < 1000000 := by
  by_cases hk : 0 ≤ kt
  · rw [ktime_to_ms_of_nonneg kt hk] at h
    omega
  · have hneg : ktime_to_ms (-kt) = 0 := by
      unfold ktime_to_ms at h ⊢
      rw [Int.neg_tdiv, h]
      rfl
    rw [ktime_to_ms_of_nonneg (-kt) (by omega)] at hneg
    omega

theorem int_to_s64_of_small (v : Int) (h1 : -2 ^ 63 ≤ v) (h2 : v < 2 ^ 63) :
    int_to_s64 v = v := by
  unfold int_to_s64
  split_ifs <;> omega

/-- The outcome of `zenpower_rapl_read_power` on channel `c` of an initialised
tracker whose counter read succeeds, in terms of the truncated elapsed time. -/
theorem rapl_read_power_ready (hw : Hw) (data : zenpower_data) (c : Fin 2)
    (hinit : data.rapl_initialized = true)
    (herr : (hw.rdmsr (if (c.val : Int) = 0 then MSR_AMD_PKG_ENERGY_STATUS
      else MSR_AMD_PP0_ENERGY_STATUS)).1 = 0) :
    zenpower_rapl_read_power hw data c.val =
      if int_to_u32 (ktime_to_ms (int_to_s64 (hw.ktime - data.rapl_prev_time c))) = 0 then
        some { ret := -EAGAIN, val := none, data := data }
      else
        some { ret := 0,
               val := some (u64_to_long
                 (wrap_u64 (wrap_u64
                    (rapl_energy_delta (data.rapl_prev_energy c)
                      (hw.rdmsr (if (c.val : Int) = 0 then MSR_AMD_PKG_ENERGY_STATUS
                        else MSR_AMD_PP0_ENERGY_STATUS)).2 * data.rapl_energy_unit) * 1000)
                   / int_to_u32 (ktime_to_ms (int_to_s64 (hw.ktime - data.rapl_prev_time c))))),
               data := { data with
                 rapl_prev_energy := array_set data.rapl_prev_energy c.val
                   (hw.rdmsr (if (c.val : Int) = 0 then MSR_AMD_PKG_ENERGY_STATUS
                     else MSR_AMD_PP0_ENERGY_STATUS)).2,
                 rapl_prev_time := array_set data.rapl_prev_time c.val hw.ktime } } := by
  unfold zenpower_rapl_read_power
  simp only [hinit, Bool.true_eq_false, if_false, herr, ne_eq, not_true_eq_false,
    array_get?_fin]

/-- C11 (as stated, refuted): with an elapsed time of `2^32 + 1` whole
milliseconds, energy delta 1 and scale 1, the read succeeds with power 1000,
where `(1 × 1 × 1000) / (2^32 + 1)` is 0: the elapsed time is cut to 32 bits.
With the counter value `2^63`, scale 1 and 1 ms elapsed the read succeeds with
power 0: the 64-bit product has wrapped. -/
theorem rapl_power_not_exact :
    ktime_to_ms ((2 ^ 32 + 1) * 1000000 - 0) = 2 ^ 32 + 1 ∧
    (zenpower_rapl_read_power (hw_rapl 1 ((2 ^ 32 + 1) * 1000000)) (rapl_ready_data 1) 0).map
      (fun out => (out.ret, out.val)) = some (0, some 1000) ∧
    ((rapl_energy_delta 0 1 * 1 * 1000 : Nat) : Int) / (2 ^ 32 + 1) = 0 ∧
    ktime_to_ms (1000000 - 0) = 1 ∧
    (zenpower_rapl_read_power (hw_rapl (2 ^ 63) 1000000) (rapl_ready_data 1) 0).map
      (fun out => (out.ret, out.val)) = some (0, some 0) ∧
    ((rapl_energy_delta 0 (2 ^ 63) * 1 * 1000 : Nat) : Int) / 1 = 1000 * 2 ^ 63 := by
  refine ⟨by decide, ?_, by decide, by decide, ?_, by decide⟩
  · rw [show (0 : Int) = ((0 : Fin 2).val : Int) from rfl,
      rapl_read_power_ready _ _ 0 rfl rfl]
    decide
  · rw [show (0 : Int) = ((0 : Fin 2).val : Int) from rfl,
      rapl_read_power_ready _ _ 0 rfl rfl]
    decide

theorem elapsed_ms_truncation (diff : Int) (h0 : 0 ≤ diff)
    (h1 : ktime_to_ms diff < 2 ^ 32) :
    int_to_u32 (ktime_to_ms (int_to_s64 diff)) = (ktime_to_ms diff).toNat := by
  have hk := ktime_to_ms_of_nonneg diff h0
  have hs : int_to_s64 diff = diff := by
    apply int_to_s64_of_small
    · omega
    · rw [hk] at h1
      omega
  rw [hs]
  unfold int_to_u32
  rw [hk] at h1 ⊢
  omega

theorem power_value_exact (product ms : Nat) (hp : product * 1000 < 2 ^ 63) :
    u64_to_long (wrap_u64 (wrap_u64 product * 1000) / ms) =
      ((product * 1000 : Nat) : Int) / (ms : Int) := by
  have hw1 : wrap_u64 product = product := by
    unfold wrap_u64
    omega
  have hw2 : wrap_u64 (product * 1000) = product * 1000 := by
    unfold wrap_u64
    omega
  have hq : product * 1000 / ms ≤ product * 1000 := Nat.div_le_self _ _
  rw [hw1, hw2]
  have hcast : ((product * 1000 : Nat) : Int) / (ms : Int) = ((product * 1000 / ms : Nat) : Int) := by
    norm_cast
  rw [hcast]
  generalize product * 1000 / ms = q at hq ⊢
  unfold u64_to_long
  have hlt : q % 2 ^ 64 = q := by omega
  rw [hlt, if_pos (by omega)]

/-- C11 (amended): for every initialised tracker state, channel and successful
energy-counter read, when the stored timestamp is not after the current one,
the difference in whole milliseconds elapsed_ms is non-zero and below `2^32`,
and energy_delta × energy_unit_scale × 1000 is below `2^63`,
`zenpower_rapl_read_power` succeeds and reports
`(energy_delta × energy_unit_scale × 1000) / elapsed_ms`, the products being
formed before the single integer division. -/
theorem rapl_read_power_value (hw : Hw) (data : zenpower_data) (c : Fin 2)
    (hinit : data.rapl_initialized = true)
    (herr : (hw.rdmsr (if (c.val : Int) = 0 then MSR_AMD_PKG_ENERGY_STATUS
      else MSR_AMD_PP0_ENERGY_STATUS)).1 = 0)
    (hmono : data.rapl_prev_time c ≤ hw.ktime)
    (hms0 : ktime_to_ms (hw.ktime - data.rapl_prev_time c) ≠ 0)
    (hms1 : ktime_to_ms (hw.ktime - data.rapl_prev_time c) < 2 ^ 32)
    (hprod : rapl_energy_delta (data.rapl_prev_energy c)
        (hw.rdmsr (if (c.val : Int) = 0 then MSR_AMD_PKG_ENERGY_STATUS
          else MSR_AMD_PP0_ENERGY_STATUS)).2 * data.rapl_energy_unit * 1000 < 2 ^ 63) :
    ∃ out : ReadOut, zenpower_rapl_read_power hw data c.val = some out ∧ out.ret = 0 ∧
      out.val = some
        (((rapl_energy_delta (data.rapl_prev_energy c)
            (hw.rdmsr (if (c.val : Int) = 0 then MSR_AMD_PKG_ENERGY_STATUS
              else MSR_AMD_PP0_ENERGY_STATUS)).2 * data.rapl_energy_unit * 1000 : Nat) : Int)
          / ktime_to_ms (hw.ktime - data.rapl_prev_time c)) := by
  have h0 : 0 ≤ hw.ktime - data.rapl_prev_time c := by omega
  have hnn : 0 ≤ ktime_to_ms (hw.ktime - data.rapl_prev_time c) := by
    rw [ktime_to_ms_of_nonneg _ h0]
    omega
  have htr := elapsed_ms_truncation _ h0 hms1
  have hne : ¬ int_to_u32 (ktime_to_ms (int_to_s64 (hw.ktime - data.rapl_prev_time c))) = 0 := by
    rw [htr]
    omega
  rw [rapl_read_power_ready hw data c hinit herr, if_neg hne]
  refine ⟨_, rfl, rfl, ?_⟩
  simp only
  rw [htr, power_value_exact _ _ hprod, Int.toNat_of_nonneg hnn]

/-- Instance of the amended C11: energy delta 2000, scale 15, 10 ms elapsed
give 3,000,000 microwatts. -/
theorem rapl_read_power_value_witness :
    ∃ out : ReadOut,
      zenpower_rapl_read_power (hw_rapl 2000 10000000) (rapl_ready_data 15) 0 = some out ∧
      out.ret = 0 ∧ out.val = some 3000000 :=
  rapl_read_power_value (hw_rapl 2000 10000000) (rapl_ready_data 15) 0 rfl rfl
    (by decide) (by decide) (by decide) (by decide)

/-- C12: `zenpower_rapl_read_power` returns `-EAGAIN`, a code different from
success and from the driver's hard errors, when the tracker is not
initialised, and when the counter read succeeds and the elapsed time since
the channel's stored timestamp is zero whole milliseconds (identical
timestamps included); in both cases nothing is stored through `val` and the
state, with both baselines, is unchanged. -/
theorem rapl_read_power_try_again (hw : Hw) (data : zenpower_data) :
    (data.rapl_initialized = false → ∀ channel : Int,
      zenpower_rapl_read_power hw data channel =
        some { ret := -EAGAIN, val := none, data := data }) ∧
    (∀ c : Fin 2, data.rapl_initialized = true →
      (hw.rdmsr (if (c.val : Int) = 0 then MSR_AMD_PKG_ENERGY_STATUS
        else MSR_AMD_PP0_ENERGY_STATUS)).1 = 0 →
      ktime_to_ms (hw.ktime - data.rapl_prev_time c) = 0 →
      zenpower_rapl_read_power hw data c.val =
        some { ret := -EAGAIN, val := none, data := data }) ∧
    (∀ c : Fin 2, data.rapl_initialized = true →
      (hw.rdmsr (if (c.val : Int) = 0 then MSR_AMD_PKG_ENERGY_STATUS
        else MSR_AMD_PP0_ENERGY_STATUS)).1 = 0 →
      hw.ktime = data.rapl_prev_time c →
      zenpower_rapl_read_power hw data c.val =
        some { ret := -EAGAIN, val := none, data := data }) ∧
    (-EAGAIN ≠ 0 ∧ -EAGAIN ≠ -ENODEV ∧ -EAGAIN ≠ -EOPNOTSUPP ∧ -EAGAIN ≠ -ENOMEM) := by
  have hzero : ∀ c : Fin 2, data.rapl_initialized = true →
      (hw.rdmsr (if (c.val : Int) = 0 then MSR_AMD_PKG_ENERGY_STATUS
        else MSR_AMD_PP0_ENERGY_STATUS)).1 = 0 →
      ktime_to_ms (hw.ktime - data.rapl_prev_time c) = 0 →
      zenpower_rapl_read_power hw data c.val =
        some { ret := -EAGAIN, val := none, data := data } := by
    intro c hinit herr hms
    have hb := ktime_to_ms_eq_zero_bound _ hms
    have hs : int_to_s64 (hw.ktime - data.rapl_prev_time c) =
        hw.ktime - data.rapl_prev_time c :=
      int_to_s64_of_small _ (by omega) (by omega)
    rw [rapl_read_power_ready hw data c hinit herr, hs, hms, if_pos (by decide)]
  refine ⟨?_, hzero, ?_, by decide⟩
  · intro hinit channel
    unfold zenpower_rapl_read_power
    rw [if_pos hinit]
  · intro c hinit herr htime
    apply hzero c hinit herr
    rw [htime, sub_self]
    decide

/-- Instance of C12: an uninitialised tracker, and a second read at the
stored timestamp. -/
theorem rapl_read_power_try_again_witness :
    zenpower_rapl_read_power (hw_rapl 7 5) blank_data 1 =
      some { ret := -EAGAIN, val := none, data := blank_data } ∧
    zenpower_rapl_read_power (hw_rapl 7 0) (rapl_ready_data 15) ((1 : Fin 2).val : Int) =
      some { ret := -EAGAIN, val := none, data := rapl_ready_data 15 } :=
  ⟨(rapl_read_power_try_again (hw_rapl 7 5) blank_data).1 rfl 1,
   (rapl_read_power_try_again (hw_rapl 7 0) (rapl_ready_data 15)).2.2.1 1 rfl rfl rfl⟩

theorem array_get?_out_of_range {α : Type} {n : Nat} (a : Fin n → α) (i : Int)
    (h : ¬ (0 ≤ i ∧ i < n)) : array_get? a i = none := by
  unfold array_get?
  rw [dif_neg h]

/-- Every result of `zenpower_rapl_read_power` with return code 0 comes from
the success branch: the channel is 0 or 1 and the state is the old one with
the channel's baseline replaced. -/
theorem rapl_read_power_success_shape (hw : Hw) (data : zenpower_data) (channel : Int)
    (out : ReadOut) (h : zenpower_rapl_read_power hw data channel = some out)
    (hret : out.ret = 0) :
    ∃ c : Fin 2, (c.val : Int) = channel ∧
      out.data = { data with
        rapl_prev_energy := array_set data.rapl_prev_energy channel
          (hw.rdmsr (if channel = 0 then MSR_AMD_PKG_ENERGY_STATUS
            else MSR_AMD_PP0_ENERGY_STATUS)).2,
        rapl_prev_time := array_set data.rapl_prev_time channel hw.ktime } := by
  have hagain : (-EAGAIN : Int) ≠ 0 := by decide
  by_cases hinit : data.rapl_initialized = false
  · unfold zenpower_rapl_read_power at h
    rw [if_pos hinit] at h
    cases h
    exact absurd hret hagain
  · have hinit1 : data.rapl_initialized = true := by
      cases hi : data.rapl_initialized
      · exact absurd hi hinit
      · rfl
    by_cases herr : (hw.rdmsr (if channel = 0 then MSR_AMD_PKG_ENERGY_STATUS
        else MSR_AMD_PP0_ENERGY_STATUS)).1 = 0
    · by_cases hr : 0 ≤ channel ∧ channel < ((2 : Nat) : Int)
      · obtain ⟨c, hc⟩ : ∃ c : Fin 2, (c.val : Int) = channel :=
          ⟨⟨channel.toNat, by omega⟩, by simp only; omega⟩
        subst hc
        refine ⟨c, rfl, ?_⟩
        rw [rapl_read_power_ready hw data c hinit1 herr] at h
        by_cases hms :
            int_to_u32 (ktime_to_ms (int_to_s64 (hw.ktime - data.rapl_prev_time c))) = 0
        · rw [if_pos hms] at h
          cases h
          exact absurd hret hagain
        · rw [if_neg hms] at h
          cases h
          rfl
      · unfold zenpower_rapl_read_power at h
        simp only [hinit1, Bool.true_eq_false, if_false, herr, ne_eq, not_true_eq_false,
          array_get?_out_of_range _ _ hr] at h
        cases h
    · unfold zenpower_rapl_read_power at h
      simp only [hinit1, Bool.true_eq_false, if_false, ne_eq, herr, not_false_eq_true,
        if_true] at h
      cases h
      exact absurd hret herr

/-- C13: every successful `zenpower_rapl_read_power` on channel c stores the
energy-counter value and the timestamp it just read as channel c's baseline,
and leaves the other channel's baseline energy and timestamp, the energy unit
scale, the availability flags and the initialised flag unchanged. -/
theorem rapl_read_power_success_frame (hw : Hw) (data : zenpower_data) (channel : Int)
    (out : ReadOut) (h : zenpower_rapl_read_power hw data channel = some out)
    (hret : out.ret = 0) :
    array_get? out.data.rapl_prev_energy channel =
      some (hw.rdmsr (if channel = 0 then MSR_AMD_PKG_ENERGY_STATUS
        else MSR_AMD_PP0_ENERGY_STATUS)).2 ∧
    array_get? out.data.rapl_prev_time channel = some hw.ktime ∧
    (∀ j : Fin 2, (j.val : Int) ≠ channel →
      out.data.rapl_prev_energy j = data.rapl_prev_energy j ∧
      out.data.rapl_prev_time j = data.rapl_prev_time j) ∧
    out.data.rapl_energy_unit = data.rapl_energy_unit ∧
    out.data.rapl_available = data.rapl_available ∧
    out.data.rapl_initialized = data.rapl_initialized := by
  obtain ⟨c, hc, hdata⟩ := rapl_read_power_success_shape hw data channel out h hret
  subst hc
  rw [hdata]
  refine ⟨?_, ?_, ?_, rfl, rfl, rfl⟩
  · rw [array_get?_fin]
    exact congrArg some (array_set_same _ _ _)
  · rw [array_get?_fin]
    exact congrArg some (array_set_same _ _ _)
  · intro j hj
    exact ⟨array_set_other _ _ _ j hj, array_set_other _ _ _ j hj⟩

/-- Instance of C13: a successful read of channel 0 with counter value 2000 at
time 10 ms stores both as the baseline of channel 0 and keeps channel 1. -/
theorem rapl_read_power_success_frame_witness :
    ∃ out : ReadOut,
      zenpower_rapl_read_power (hw_rapl 2000 10000000) (rapl_ready_data 15) 0 = some out ∧
      out.ret = 0 ∧
      array_get? out.data.rapl_prev_energy 0 = some 2000 ∧
      array_get? out.data.rapl_prev_time 0 = some 10000000 ∧
      out.data.rapl_prev_energy 1 = 0 ∧ out.data.rapl_prev_time 1 = 0 :=
  ⟨_, rfl, rfl,
    (rapl_read_power_success_frame (hw_rapl 2000 10000000) (rapl_ready_data 15) 0 _ rfl rfl).1,
    (rapl_read_power_success_frame (hw_rapl 2000 10000000) (rapl_ready_data 15) 0 _ rfl rfl).2.1,
    ((rapl_read_power_success_frame (hw_rapl 2000 10000000) (rapl_ready_data 15) 0 _ rfl
      rfl).2.2.1 1 (by decide)).1,
    ((rapl_read_power_success_frame (hw_rapl 2000 10000000) (rapl_ready_data 15) 0 _ rfl
      rfl).2.2.1 1 (by decide)).2⟩

/-! ## Energy counter initialisation -/

theorem energy_unit_field (val : Nat) :
    (val &&& RAPL_ENERGY_UNIT_MASK) >>> RAPL_ENERGY_UNIT_SHIFT = (val >>> 8) &&& 0x1f := by
  apply Nat.eq_of_testBit_eq
  intro j
  have h : (0x1f : Nat) = 0x1f00 >>> 8 := by decide
  unfold RAPL_ENERGY_UNIT_MASK RAPL_ENERGY_UNIT_SHIFT
  rw [Nat.testBit_shiftRight, Nat.testBit_and, Nat.testBit_and, Nat.testBit_shiftRight, h,
    Nat.testBit_shiftRight]

theorem energy_unit_field_lt (val : Nat) : (val >>> 8) &&& 0x1f < 32 :=
  Nat.and_lt_two_pow _ (by decide : (0x1f : Nat) < 2 ^ 5)

theorem energy_unit_scale_eq (e : Nat) (he : e < 32) :
    wrap_u32 (1000000 >>> wrap_u32 e) = 1000000 >>> e ∧
    (20 ≤ e → 1000000 >>> e = 0) ∧ 1000000 >>> e ≤ 1000000 := by
  have hw : wrap_u32 e = e := by
    unfold wrap_u32
    omega
  rw [hw]
  unfold wrap_u32
  interval_cases e <;> decide

/-- The state `zenpower_rapl_init` leaves when the unit read and the package
baseline read succeed. -/
theorem rapl_init_package_ok (hw : Hw) (data : zenpower_data)
    (hu : (hw.rdmsr MSR_AMD_RAPL_POWER_UNIT).1 = 0)
    (hp : (hw.rdmsr MSR_AMD_PKG_ENERGY_STATUS).1 = 0) :
    zenpower_rapl_init hw data =
      (0, { data with
        rapl_energy_unit := 1000000 >>> (((hw.rdmsr MSR_AMD_RAPL_POWER_UNIT).2 >>> 8) &&& 0x1f),
        rapl_prev_energy :=
          array_set (array_set data.rapl_prev_energy 0 (hw.rdmsr MSR_AMD_PKG_ENERGY_STATUS).2)
            1 (hw.rdmsr MSR_AMD_PP0_ENERGY_STATUS).2,
        rapl_available :=
          array_set (array_set data.rapl_available 0 true) 1
            (decide ((hw.rdmsr MSR_AMD_PP0_ENERGY_STATUS).1 = 0)),
        rapl_prev_time :=
          array_set (array_set data.rapl_prev_time 0 hw.ktime) 1 hw.ktime,
        rapl_initialized := true }) := by
  have hscale := (energy_unit_scale_eq _
    (energy_unit_field_lt (hw.rdmsr MSR_AMD_RAPL_POWER_UNIT).2)).1
  unfold zenpower_rapl_init
  simp only [hu, hp, ne_eq, not_true_eq_false, if_false, energy_unit_field, hscale]
  by_cases hc : (hw.rdmsr MSR_AMD_PP0_ENERGY_STATUS).1 = 0
  · simp [hc, array_set]
  · simp [hc, array_set]

/-- The state `zenpower_rapl_init` leaves when the unit read succeeds and the
package baseline read fails. -/
theorem rapl_init_package_failed (hw : Hw) (data : zenpower_data)
    (hu : (hw.rdmsr MSR_AMD_RAPL_POWER_UNIT).1 = 0)
    (hp : (hw.rdmsr MSR_AMD_PKG_ENERGY_STATUS).1 ≠ 0) :
    zenpower_rapl_init hw data =
      ((hw.rdmsr MSR_AMD_PKG_ENERGY_STATUS).1, { data with
        rapl_energy_unit := 1000000 >>> (((hw.rdmsr MSR_AMD_RAPL_POWER_UNIT).2 >>> 8) &&& 0x1f),
        rapl_prev_energy :=
          array_set data.rapl_prev_energy 0 (hw.rdmsr MSR_AMD_PKG_ENERGY_STATUS).2 }) := by
  have hscale := (energy_unit_scale_eq _
    (energy_unit_field_lt (hw.rdmsr MSR_AMD_RAPL_POWER_UNIT).2)).1
  unfold zenpower_rapl_init
  simp only [hu, hp, ne_eq, not_true_eq_false, not_false_eq_true, if_false, if_true,
    energy_unit_field, hscale]

/-- C14: when all three register reads succeed, `zenpower_rapl_init` returns
0, sets the unit scale to `1000000 >> e` with e the 5-bit field in bits 12:8
of the unit register (0 for every e >= 20), stores each channel's counter
reading as its baseline, gives both channels the timestamp just read, marks
both channels available and the tracker initialised. -/
theorem rapl_init_success (hw : Hw) (data : zenpower_data)
    (hu : (hw.rdmsr MSR_AMD_RAPL_POWER_UNIT).1 = 0)
    (hp : (hw.rdmsr MSR_AMD_PKG_ENERGY_STATUS).1 = 0)
    (hc : (hw.rdmsr MSR_AMD_PP0_ENERGY_STATUS).1 = 0) :
    (zenpower_rapl_init hw data).1 = 0 ∧
    (zenpower_rapl_init hw data).2.rapl_energy_unit =
      1000000 >>> (((hw.rdmsr MSR_AMD_RAPL_POWER_UNIT).2 >>> 8) &&& 0x1f) ∧
    ((hw.rdmsr MSR_AMD_RAPL_POWER_UNIT).2 >>> 8) &&& 0x1f < 32 ∧
    (20 ≤ ((hw.rdmsr MSR_AMD_RAPL_POWER_UNIT).2 >>> 8) &&& 0x1f →
      (zenpower_rapl_init hw data).2.rapl_energy_unit = 0) ∧
    (zenpower_rapl_init hw data).2.rapl_prev_energy 0 =
      (hw.rdmsr MSR_AMD_PKG_ENERGY_STATUS).2 ∧
    (zenpower_rapl_init hw data).2.rapl_prev_energy 1 =
      (hw.rdmsr MSR_AMD_PP0_ENERGY_STATUS).2 ∧
    (zenpower_rapl_init hw data).2.rapl_prev_time 0 = hw.ktime ∧
    (zenpower_rapl_init hw data).2.rapl_prev_time 1 = hw.ktime ∧
    (zenpower_rapl_init hw data).2.rapl_available 0 = true ∧
    (zenpower_rapl_init hw data).2.rapl_available 1 = true ∧
    (zenpower_rapl_init hw data).2.rapl_initialized = true := by
  have hlt := energy_unit_field_lt (hw.rdmsr MSR_AMD_RAPL_POWER_UNIT).2
  rw [rapl_init_package_ok hw data hu hp]
  refine ⟨rfl, rfl, hlt, ?_, ?_, ?_, ?_, ?_, ?_, ?_, rfl⟩
  · exact (energy_unit_scale_eq _ hlt).2.1
  · simp [array_set]
  · simp [array_set]
  · simp [array_set]
  · simp [array_set]
  · simp [array_set]
  · simp [array_set, hc]

/-- Instance of C14: unit register `0x000A1003` (exponent 16), counters 123
and 45 read at time 777: scale 15, baselines 123 and 45. -/
theorem rapl_init_success_witness :
    (zenpower_rapl_init
      { smn := fun _ _ => 0,
        rdmsr := fun msr =>
          if msr = MSR_AMD_RAPL_POWER_UNIT then (0, 0x000A1003)
          else if msr = MSR_AMD_PKG_ENERGY_STATUS then (0, 123) else (0, 45),
        ktime := 777 } blank_data).2.rapl_energy_unit = 1000000 >>> 16 ∧
    (zenpower_rapl_init
      { smn := fun _ _ => 0,
        rdmsr := fun msr =>
          if msr = MSR_AMD_RAPL_POWER_UNIT then (0, 0x000A1003)
          else if msr = MSR_AMD_PKG_ENERGY_STATUS then (0, 123) else (0, 45),
        ktime := 777 } blank_data).2.rapl_prev_energy 0 = 123 :=
  ⟨(rapl_init_success _ blank_data rfl rfl rfl).2.1,
   (rapl_init_success _ blank_data rfl rfl rfl).2.2.2.2.1⟩

/-- C15: in `zenpower_rapl_init`, a failed package baseline read makes the
initialisation return that error and leaves the initialised flag as it was,
so on a tracker that was not initialised every later power read returns
`-EAGAIN`; a failed core baseline read, the package read succeeding, lets the
initialisation return 0 with the tracker initialised, the package channel
available and the core channel unavailable. -/
theorem rapl_init_failures (hw : Hw) (data : zenpower_data)
    (hu : (hw.rdmsr MSR_AMD_RAPL_POWER_UNIT).1 = 0) :
    ((hw.rdmsr MSR_AMD_PKG_ENERGY_STATUS).1 ≠ 0 →
      (zenpower_rapl_init hw data).1 = (hw.rdmsr MSR_AMD_PKG_ENERGY_STATUS).1 ∧
      (zenpower_rapl_init hw data).1 ≠ 0 ∧
      (zenpower_rapl_init hw data).2.rapl_initialized = data.rapl_initialized ∧
      (data.rapl_initialized = false → ∀ (later : Hw) (channel : Int),
        zenpower_rapl_read_power later (zenpower_rapl_init hw data).2 channel =
          some { ret := -EAGAIN, val := none, data := (zenpower_rapl_init hw data).2 })) ∧
    ((hw.rdmsr MSR_AMD_PKG_ENERGY_STATUS).1 = 0 →
      (hw.rdmsr MSR_AMD_PP0_ENERGY_STATUS).1 ≠ 0 →
      (zenpower_rapl_init hw data).1 = 0 ∧
      (zenpower_rapl_init hw data).2.rapl_initialized = true ∧
      (zenpower_rapl_init hw data).2.rapl_available 0 = true ∧
      (zenpower_rapl_init hw data).2.rapl_available 1 = false) := by
  constructor
  · intro hp
    rw [rapl_init_package_failed hw data hu hp]
    refine ⟨rfl, hp, rfl, ?_⟩
    intro hinit later channel
    unfold zenpower_rapl_read_power
    rw [if_pos hinit]
  · intro hp hc
    rw [rapl_init_package_ok hw data hu hp]
    refine ⟨rfl, rfl, ?_, ?_⟩
    · simp [array_set]
    · simp [array_set, hc]

/-- Instance of C15: the package read failing with -5, and the core read
failing with -5 after a good package read. -/
theorem rapl_init_failures_witness :
    (zenpower_rapl_init
      { smn := fun _ _ => 0,
        rdmsr := fun msr => if msr = MSR_AMD_PKG_ENERGY_STATUS then (-5, 0) else (0, 0),
        ktime := 0 } blank_data).1 = -5 ∧
    (zenpower_rapl_init
      { smn := fun _ _ => 0,
        rdmsr := fun msr => if msr = MSR_AMD_PP0_ENERGY_STATUS then (-5, 0) else (0, 0),
        ktime := 0 } blank_data).2.rapl_available 1 = false :=
  ⟨((rapl_init_failures _ blank_data rfl).1 (by decide)).1,
   ((rapl_init_failures _ blank_data rfl).2 rfl (by decide)).2.2.2⟩

/-! ## Probe -/

theorem lookup_from_mem (l : List zenpower_model_config) (family model : Nat)
    (e : zenpower_model_config) (h : lookup_from l family model = some e) : e ∈ l := by
  induction l with
  | nil => cases h
  | cons cfg rest ih =>
    unfold lookup_from at h
    by_cases h0 : cfg.family = 0
    · rw [if_pos h0] at h
      cases h
    · rw [if_neg h0] at h
      by_cases hm : cfg.family = family ∧ cfg.model = model
      · rw [if_pos hm] at h
        cases h
        exact List.mem_cons_self _ _
      · rw [if_neg hm] at h
        exact List.mem_cons_of_mem _ (ih h)

theorem model_configs_num_ccds_le : ∀ e ∈ model_configs, e.num_ccds ≤ 8 := by
  decide

theorem lookup_num_ccds_le (family model : Nat) (config : zenpower_model_config)
    (h : lookup_model_config family model = some config) : config.num_ccds ≤ 8 :=
  model_configs_num_ccds_le config (lookup_from_mem _ _ _ _ h)

theorem probe_ccd_loop_eq (hw : Hw) : ∀ (n i : Nat) (data : zenpower_data), i + n ≤ 8 →
    probe_ccd_loop hw n i data =
      some { data with ccd_visible := fun j =>
        if (i ≤ j.val ∧ j.val < i + n ∧
            hw.smn data.node_id (int_to_u32
              (if data.zen5 = true then F1AH_M70H_CCD_TEMP (j.val : Int)
                else F17H_M70H_CCD_TEMP (j.val : Int))) &&& 2 ^ 11 ≠ 0)
        then true else data.ccd_visible j } := by
  intro n
  induction n with
  | zero =>
    intro i data _
    unfold probe_ccd_loop
    congr 1
    have hf : (fun j : Fin 8 =>
        if i ≤ j.val ∧ j.val < i + 0 ∧
            hw.smn data.node_id (int_to_u32
              (if data.zen5 = true then F1AH_M70H_CCD_TEMP (j.val : Int)
                else F17H_M70H_CCD_TEMP (j.val : Int))) &&& 2 ^ 11 ≠ 0
        then true else data.ccd_visible j) = data.ccd_visible := by
      funext j
      rw [if_neg (by omega)]
    rw [hf]
  | succ n ih =>
    intro i data hle
    unfold probe_ccd_loop
    simp only
    by_cases hbit : hw.smn data.node_id (int_to_u32
        (if data.zen5 = true then F1AH_M70H_CCD_TEMP (i : Int)
          else F17H_M70H_CCD_TEMP (i : Int))) &&& 2 ^ 11 ≠ 0
    · rw [if_pos hbit, if_pos (by omega), ih (i + 1) _ (by omega)]
      congr 2
      funext j
      simp only [array_set]
      by_cases hji : (j.val : Int) = (i : Int)
      · have hji2 : j.val = i := by omega
        rw [if_pos hji, if_neg (by omega), if_pos]
        refine ⟨by omega, by omega, ?_⟩
        rw [hji2]
        exact hbit
      · rw [if_neg hji]
        by_cases hc : i + 1 ≤ j.val ∧ j.val < i + 1 + n ∧
            hw.smn data.node_id (int_to_u32
              (if data.zen5 = true then F1AH_M70H_CCD_TEMP (j.val : Int)
                else F17H_M70H_CCD_TEMP (j.val : Int))) &&& 2 ^ 11 ≠ 0
        · rw [if_pos hc, if_pos ⟨by omega, by omega, hc.2.2⟩]
        · rw [if_neg hc, if_neg]
          intro hc2
          exact hc ⟨by omega, by omega, hc2.2.2⟩
    · rw [if_neg hbit, ih (i + 1) _ (by omega)]
      congr 2
      funext j
      by_cases hc : i + 1 ≤ j.val ∧ j.val < i + 1 + n ∧
          hw.smn data.node_id (int_to_u32
            (if data.zen5 = true then F1AH_M70H_CCD_TEMP (j.val : Int)
              else F17H_M70H_CCD_TEMP (j.val : Int))) &&& 2 ^ 11 ≠ 0
      · rw [if_pos hc, if_pos ⟨by omega, by omega, hc.2.2⟩]
      · rw [if_neg hc, if_neg]
        intro hc2
        by_cases hji : j.val = i
        · rw [hji] at hc2
          exact hbit hc2.2.2
        · exact hc ⟨by omega, by omega, hc2.2.2⟩

/-- The function `zenpower_rapl_init` writes the tracker fields only. -/
theorem rapl_init_frame (hw : Hw) (data : zenpower_data) :
    (zenpower_rapl_init hw data).2 =
      { data with
        rapl_prev_energy := (zenpower_rapl_init hw data).2.rapl_prev_energy,
        rapl_prev_time := (zenpower_rapl_init hw data).2.rapl_prev_time,
        rapl_available := (zenpower_rapl_init hw data).2.rapl_available,
        rapl_energy_unit := (zenpower_rapl_init hw data).2.rapl_energy_unit,
        rapl_initialized := (zenpower_rapl_init hw data).2.rapl_initialized } := by
  unfold zenpower_rapl_init
  simp only
  split_ifs <;> rfl

theorem rapl_init_svi_core_addr (hw : Hw) (data : zenpower_data) :
    (zenpower_rapl_init hw data).2.svi_core_addr = data.svi_core_addr :=
  (congrArg zenpower_data.svi_core_addr (rapl_init_frame hw data) :)

theorem rapl_init_svi_soc_addr (hw : Hw) (data : zenpower_data) :
    (zenpower_rapl_init hw data).2.svi_soc_addr = data.svi_soc_addr :=
  (congrArg zenpower_data.svi_soc_addr (rapl_init_frame hw data) :)

theorem rapl_init_node_id (hw : Hw) (data : zenpower_data) :
    (zenpower_rapl_init hw data).2.node_id = data.node_id :=
  (congrArg zenpower_data.node_id (rapl_init_frame hw data) :)

theorem rapl_init_cpu_id (hw : Hw) (data : zenpower_data) :
    (zenpower_rapl_init hw data).2.cpu_id = data.cpu_id :=
  (congrArg zenpower_data.cpu_id (rapl_init_frame hw data) :)

theorem rapl_init_nodes_per_cpu (hw : Hw) (data : zenpower_data) :
    (zenpower_rapl_init hw data).2.nodes_per_cpu = data.nodes_per_cpu :=
  (congrArg zenpower_data.nodes_per_cpu (rapl_init_frame hw data) :)

theorem rapl_init_zen2 (hw : Hw) (data : zenpower_data) :
    (zenpower_rapl_init hw data).2.zen2 = data.zen2 :=
  (congrArg zenpower_data.zen2 (rapl_init_frame hw data) :)

theorem rapl_init_zen5 (hw : Hw) (data : zenpower_data) :
    (zenpower_rapl_init hw data).2.zen5 = data.zen5 :=
  (congrArg zenpower_data.zen5 (rapl_init_frame hw data) :)

theorem rapl_init_ccd_visible (hw : Hw) (data : zenpower_data) :
    (zenpower_rapl_init hw data).2.ccd_visible = data.ccd_visible :=
  (congrArg zenpower_data.ccd_visible (rapl_init_frame hw data) :)

theorem rapl_init_no_rapl_core (hw : Hw) (data : zenpower_data) :
    (zenpower_rapl_init hw data).2.no_rapl_core = data.no_rapl_core :=
  (congrArg zenpower_data.no_rapl_core (rapl_init_frame hw data) :)

theorem rapl_init_amps_visible (hw : Hw) (data : zenpower_data) :
    (zenpower_rapl_init hw data).2.amps_visible = data.amps_visible :=
  (congrArg zenpower_data.amps_visible (rapl_init_frame hw data) :)

theorem rapl_init_temp_offset (hw : Hw) (data : zenpower_data) :
    (zenpower_rapl_init hw data).2.temp_offset = data.temp_offset :=
  (congrArg zenpower_data.temp_offset (rapl_init_frame hw data) :)

theorem probe_node_of_cpu_eq (node_id nodes_per_cpu : Nat) (h : nodes_per_cpu ≤ 8)
    (h1 : 1 ≤ nodes_per_cpu) :
    probe_node_of_cpu node_id nodes_per_cpu = node_id % nodes_per_cpu := by
  unfold probe_node_of_cpu
  have := Nat.mod_lt node_id (by omega : nodes_per_cpu > 0)
  omega

/-- The RAPL block of probe changes `amps_visible` and the tracker fields
only. -/
theorem probe_apply_rapl_frame (env : ProbeEnv) (config : zenpower_model_config)
    (data : zenpower_data) :
    (probe_apply_rapl env config data).svi_core_addr = data.svi_core_addr ∧
    (probe_apply_rapl env config data).svi_soc_addr = data.svi_soc_addr ∧
    (probe_apply_rapl env config data).node_id = data.node_id ∧
    (probe_apply_rapl env config data).cpu_id = data.cpu_id ∧
    (probe_apply_rapl env config data).nodes_per_cpu = data.nodes_per_cpu ∧
    (probe_apply_rapl env config data).zen5 = data.zen5 ∧
    (probe_apply_rapl env config data).ccd_visible = data.ccd_visible ∧
    (probe_apply_rapl env config data).no_rapl_core = data.no_rapl_core := by
  unfold probe_apply_rapl
  split_ifs
  · exact ⟨rapl_init_svi_core_addr _ _, rapl_init_svi_soc_addr _ _, rapl_init_node_id _ _,
      rapl_init_cpu_id _ _, rapl_init_nodes_per_cpu _ _, rapl_init_zen5 _ _,
      rapl_init_ccd_visible _ _, rapl_init_no_rapl_core _ _⟩
  · exact ⟨rapl_init_svi_core_addr _ _, rapl_init_svi_soc_addr _ _, rapl_init_node_id _ _,
      rapl_init_cpu_id _ _, rapl_init_nodes_per_cpu _ _, rapl_init_zen5 _ _,
      rapl_init_ccd_visible _ _, rapl_init_no_rapl_core _ _⟩
  · exact ⟨rfl, rfl, rfl, rfl, rfl, rfl, rfl, rfl⟩

/-- The multinode block of probe changes the two telemetry addresses only. -/
theorem probe_apply_multinode_frame (config : zenpower_model_config) (multinode : Bool)
    (node_of_cpu : Nat) (data : zenpower_data) :
    (probe_apply_multinode config multinode node_of_cpu data).node_id = data.node_id ∧
    (probe_apply_multinode config multinode node_of_cpu data).cpu_id = data.cpu_id ∧
    (probe_apply_multinode config multinode node_of_cpu data).nodes_per_cpu =
      data.nodes_per_cpu ∧
    (probe_apply_multinode config multinode node_of_cpu data).zen5 = data.zen5 ∧
    (probe_apply_multinode config multinode node_of_cpu data).ccd_visible =
      data.ccd_visible ∧
    (probe_apply_multinode config multinode node_of_cpu data).no_rapl_core =
      data.no_rapl_core ∧
    (probe_apply_multinode config multinode node_of_cpu data).amps_visible =
      data.amps_visible := by
  unfold probe_apply_multinode
  split_ifs <;> exact ⟨rfl, rfl, rfl, rfl, rfl, rfl, rfl⟩

/-- The fields of the state after the configuration block that do not depend
on the multinode rule. -/
theorem probe_apply_config_frame (env : ProbeEnv) (config : zenpower_model_config)
    (data : zenpower_data) :
    (probe_apply_config env config data).node_id = data.node_id ∧
    (probe_apply_config env config data).cpu_id = data.cpu_id ∧
    (probe_apply_config env config data).nodes_per_cpu = data.nodes_per_cpu ∧
    (probe_apply_config env config data).zen5 =
      (if config.flags &&& ZEN_CFG_IS_ZEN5 ≠ 0 then true else data.zen5) ∧
    (probe_apply_config env config data).ccd_visible = data.ccd_visible ∧
    (probe_apply_config env config data).no_rapl_core =
      (if config.flags &&& ZEN_CFG_NO_RAPL_CORE ≠ 0 then true else data.no_rapl_core) := by
  unfold probe_apply_config
  simp only
  obtain ⟨m1, m2, m3, m4, m5, m6, _⟩ := probe_apply_multinode_frame config
    (decide (data.nodes_per_cpu > 1)) (probe_node_of_cpu data.node_id data.nodes_per_cpu)
    (probe_apply_rapl env config (probe_apply_flags env config data))
  obtain ⟨_, _, r1, r2, r3, r4, r5, r6⟩ := probe_apply_rapl_frame env config
    (probe_apply_flags env config data)
  rw [m1, m2, m3, m4, m5, m6, r1, r2, r3, r4, r5, r6]
  exact ⟨rfl, rfl, rfl, rfl, rfl, rfl⟩

/-- The telemetry addresses after the configuration block, by the locals
`multinode` and `node_of_cpu`. -/
theorem probe_apply_config_svi (env : ProbeEnv) (config : zenpower_model_config)
    (data : zenpower_data) :
    (probe_apply_config env config data).svi_core_addr =
      (if config.flags &&& ZEN_CFG_MULTINODE ≠ 0 ∧ data.nodes_per_cpu > 1 ∧
          probe_node_of_cpu data.node_id data.nodes_per_cpu = 0 then 0
       else config.svi_core_addr) ∧
    (probe_apply_config env config data).svi_soc_addr =
      (if config.flags &&& ZEN_CFG_MULTINODE ≠ 0 ∧ data.nodes_per_cpu > 1 ∧
          probe_node_of_cpu data.node_id data.nodes_per_cpu = 0 then config.svi_core_addr
       else if config.flags &&& ZEN_CFG_MULTINODE ≠ 0 ∧ data.nodes_per_cpu > 1 ∧
          probe_node_of_cpu data.node_id data.nodes_per_cpu = 1 then 0
       else config.svi_soc_addr) := by
  obtain ⟨r1, r2, _⟩ := probe_apply_rapl_frame env config (probe_apply_flags env config data)
  have f1 : (probe_apply_flags env config data).svi_core_addr = config.svi_core_addr := rfl
  have f2 : (probe_apply_flags env config data).svi_soc_addr = config.svi_soc_addr := rfl
  rw [f1] at r1
  rw [f2] at r2
  unfold probe_apply_config probe_apply_multinode
  simp only [decide_eq_true_eq]
  generalize probe_apply_rapl env config (probe_apply_flags env config data) = d at r1 r2 ⊢
  generalize probe_node_of_cpu data.node_id data.nodes_per_cpu = pos
  by_cases hM : config.flags &&& ZEN_CFG_MULTINODE ≠ 0
  · by_cases hn : data.nodes_per_cpu > 1
    · by_cases h0 : pos = 0
      · simp [hM, hn, h0]
      · by_cases h1 : pos = 1
        · simp [hM, hn, h1, r2]
        · simp [hM, hn, h0, h1, r1, r2]
    · simp [hM, hn, r1, r2]
  · simp [hM, r1, r2]


theorem nodes_field_lt (ecx : Nat) : (ecx >>> 8) &&& 0b111 < 8 :=
  Nat.and_lt_two_pow _ (by decide : (0b111 : Nat) < 2 ^ 3)

/-- The state `zenpower_probe` has built when it looks the configuration up. -/
theorem probe_topology_fields (env : ProbeEnv) :
    (probe_topology env).node_id =
      (match env.nb_node_id with
       | some id => id % 2 ^ 16
       | none => 0) ∧
    (probe_topology env).nodes_per_cpu = 1 + ((env.cpuid_ecx >>> 8) &&& 0b111) ∧
    (probe_topology env).cpu_id =
      ((probe_topology env).node_id / (probe_topology env).nodes_per_cpu) % 2 ^ 8 ∧
    (probe_topology env).zen5 = false ∧
    (probe_topology env).no_rapl_core = false ∧
    (probe_topology env).ccd_visible = (fun _ => false) := by
  have hf := nodes_field_lt env.cpuid_ecx
  have hmod : (1 + ((env.cpuid_ecx >>> 8) &&& 0b111)) % 2 ^ 8 =
      1 + ((env.cpuid_ecx >>> 8) &&& 0b111) := by omega
  unfold probe_topology
  cases env.nb_node_id <;> simp [hmod] <;> exact ⟨by omega, rfl⟩

theorem probe_temp_offset_frame (env : ProbeEnv) (data : zenpower_data) :
    probe_temp_offset env data =
      { data with temp_offset := (probe_temp_offset env data).temp_offset } := by
  unfold probe_temp_offset
  split <;> rfl

/-- When the allocation succeeds and the lookup finds an entry of the table,
`zenpower_probe` runs to the registration: it returns the registration's code,
and the state it registers has the fields of the configured state, except the
temperature offset and the die-complex bitmap filled by the probing loop. -/
theorem zenpower_probe_found (env : ProbeEnv) (config : zenpower_model_config)
    (halloc : env.alloc_ok = true)
    (hcfg : lookup_model_config (env.x86 % 2 ^ 8) (env.x86_model % 2 ^ 8) = some config) :
    ∃ data : zenpower_data,
      zenpower_probe env =
        some { ret := env.register_ret, data := some data,
               multicpu := if (probe_topology env).cpu_id > 0 then true else env.multicpu,
               registered := true } ∧
      data = { probe_apply_config env config (probe_topology env) with
        temp_offset := data.temp_offset,
        ccd_visible := fun j =>
          if (j.val < config.num_ccds ∧
              env.hw.smn (probe_apply_config env config (probe_topology env)).node_id
                (int_to_u32
                  (if (probe_apply_config env config (probe_topology env)).zen5 = true
                   then F1AH_M70H_CCD_TEMP (j.val : Int)
                   else F17H_M70H_CCD_TEMP (j.val : Int))) &&& 2 ^ 11 ≠ 0)
          then true else false } := by
  have hn := lookup_num_ccds_le _ _ _ hcfg
  have hvis : (probe_apply_config env config (probe_topology env)).ccd_visible =
      (fun _ => false) := by
    rw [(probe_apply_config_frame env config (probe_topology env)).2.2.2.2.1]
    exact (probe_topology_fields env).2.2.2.2.2
  have hloop := probe_ccd_loop_eq env.hw config.num_ccds 0
    (probe_apply_config env config (probe_topology env)) (by omega)
  refine ⟨probe_temp_offset env
    { probe_apply_config env config (probe_topology env) with
      ccd_visible := fun j =>
        if (0 ≤ j.val ∧ j.val < 0 + config.num_ccds ∧
            env.hw.smn (probe_apply_config env config (probe_topology env)).node_id
              (int_to_u32
                (if (probe_apply_config env config (probe_topology env)).zen5 = true
                 then F1AH_M70H_CCD_TEMP (j.val : Int)
                 else F17H_M70H_CCD_TEMP (j.val : Int))) &&& 2 ^ 11 ≠ 0)
        then true
        else (probe_apply_config env config (probe_topology env)).ccd_visible j }, ?_, ?_⟩
  · unfold zenpower_probe
    simp only [halloc, Bool.true_eq_false, if_false, hcfg, hloop]
  · rw [probe_temp_offset_frame]
    congr 1
    funext j
    rw [hvis]
    simp only [Nat.zero_le, true_and, Nat.zero_add]

/-- The fields of the state registered by a probe that found its entry, in
terms of the environment and the entry. -/
theorem zenpower_probe_found_fields (env : ProbeEnv) (config : zenpower_model_config)
    (halloc : env.alloc_ok = true)
    (hcfg : lookup_model_config (env.x86 % 2 ^ 8) (env.x86_model % 2 ^ 8) = some config) :
    ∃ data : zenpower_data,
      zenpower_probe env =
        some { ret := env.register_ret, data := some data,
               multicpu := if (probe_topology env).cpu_id > 0 then true else env.multicpu,
               registered := true } ∧
      data.node_id = (probe_topology env).node_id ∧
      data.nodes_per_cpu = 1 + ((env.cpuid_ecx >>> 8) &&& 0b111) ∧
      data.cpu_id = (data.node_id / data.nodes_per_cpu) % 2 ^ 8 ∧
      data.zen5 = (if config.flags &&& ZEN_CFG_IS_ZEN5 ≠ 0 then true else false) ∧
      data.no_rapl_core =
        (if config.flags &&& ZEN_CFG_NO_RAPL_CORE ≠ 0 then true else false) ∧
      data.svi_core_addr =
        (if config.flags &&& ZEN_CFG_MULTINODE ≠ 0 ∧ data.nodes_per_cpu > 1 ∧
            data.node_id % data.nodes_per_cpu = 0 then 0
         else config.svi_core_addr) ∧
      data.svi_soc_addr =
        (if config.flags &&& ZEN_CFG_MULTINODE ≠ 0 ∧ data.nodes_per_cpu > 1 ∧
            data.node_id % data.nodes_per_cpu = 0 then config.svi_core_addr
         else if config.flags &&& ZEN_CFG_MULTINODE ≠ 0 ∧ data.nodes_per_cpu > 1 ∧
            data.node_id % data.nodes_per_cpu = 1 then 0
         else config.svi_soc_addr) ∧
      data.amps_visible = (probe_apply_config env config (probe_topology env)).amps_visible ∧
      (∀ j : Fin 8, data.ccd_visible j =
        (if (j.val < config.num_ccds ∧
            env.hw.smn data.node_id
              (int_to_u32 (if data.zen5 = true then F1AH_M70H_CCD_TEMP (j.val : Int)
                else F17H_M70H_CCD_TEMP (j.val : Int))) &&& 2 ^ 11 ≠ 0)
         then true else false)) := by
  obtain ⟨data, hprobe, hdata⟩ := zenpower_probe_found env config halloc hcfg
  obtain ⟨t1, t2, t3, t4, t5, _⟩ := probe_topology_fields env
  obtain ⟨c1, c2, c3, c4, _, c6⟩ := probe_apply_config_frame env config (probe_topology env)
  obtain ⟨s1, s2⟩ := probe_apply_config_svi env config (probe_topology env)
  have hf := nodes_field_lt env.cpuid_ecx
  have hnode : data.node_id = (probe_topology env).node_id :=
    (congrArg zenpower_data.node_id hdata).trans c1
  have hnpc : data.nodes_per_cpu = 1 + ((env.cpuid_ecx >>> 8) &&& 0b111) :=
    ((congrArg zenpower_data.nodes_per_cpu hdata).trans c3).trans t2
  have hcpu : data.cpu_id = (probe_topology env).cpu_id :=
    (congrArg zenpower_data.cpu_id hdata).trans c2
  have hzen5 : data.zen5 = (probe_apply_config env config (probe_topology env)).zen5 :=
    (congrArg zenpower_data.zen5 hdata :)
  have hpos : probe_node_of_cpu (probe_topology env).node_id (probe_topology env).nodes_per_cpu =
      data.node_id % data.nodes_per_cpu := by
    rw [hnode, hnpc, t2]
    exact probe_node_of_cpu_eq _ _ (by omega) (by omega)
  have hnpc2 : (probe_topology env).nodes_per_cpu = data.nodes_per_cpu := by
    rw [hnpc, t2]
  rw [hpos, hnpc2] at s1 s2
  refine ⟨data, hprobe, hnode, hnpc, ?_, ?_, ?_, ?_, ?_, ?_, ?_⟩
  · rw [hcpu, t3, hnode, hnpc, t2]
  · rw [hzen5, c4, t4]
  · rw [(congrArg zenpower_data.no_rapl_core hdata : _), c6, t5]
  · exact (congrArg zenpower_data.svi_core_addr hdata).trans s1
  · exact (congrArg zenpower_data.svi_soc_addr hdata).trans s2
  · exact (congrArg zenpower_data.amps_visible hdata :)
  · intro j
    have hv := congrFun (congrArg zenpower_data.ccd_visible hdata) j
    rw [hv, ← hzen5, c1, ← hnode]

theorem lookup_model_config_17h_31h :
    ∃ config : zenpower_model_config,
      lookup_model_config (0x17 % 2 ^ 8) (0x31 % 2 ^ 8) = some config ∧
      config.svi_core_addr = F17H_M30H_SVI_TEL_PLANE0 ∧
      config.svi_soc_addr = F17H_M30H_SVI_TEL_PLANE1 ∧
      config.flags &&& ZEN_CFG_MULTINODE ≠ 0 :=
  ⟨_, rfl, rfl, rfl, by decide⟩

/-- C16: for every entry the lookup finds, every node id and every
nodes-per-CPU count, the telemetry addresses of the state probe registers
follow the multinode rule: with the entry's multinode flag set and
nodes_per_cpu > 1, position 0 gets soc = the entry's core address and core = 0,
position 1 gets core = the entry's core address and soc = 0, positions beyond
1 keep both entry addresses; with the flag clear or nodes_per_cpu = 1 both
addresses are the entry's. -/
theorem probe_multinode_split (env : ProbeEnv) (config : zenpower_model_config)
    (halloc : env.alloc_ok = true)
    (hcfg : lookup_model_config (env.x86 % 2 ^ 8) (env.x86_model % 2 ^ 8) = some config) :
    ∃ (out : ProbeOut) (data : zenpower_data),
      zenpower_probe env = some out ∧ out.data = some data ∧
      data.node_id =
        (match env.nb_node_id with
         | some id => id % 2 ^ 16
         | none => 0) ∧
      data.nodes_per_cpu = 1 + ((env.cpuid_ecx >>> 8) &&& 0b111) ∧
      (config.flags &&& ZEN_CFG_MULTINODE ≠ 0 → data.nodes_per_cpu > 1 →
        (data.node_id % data.nodes_per_cpu = 0 →
          data.svi_soc_addr = config.svi_core_addr ∧ data.svi_core_addr = 0) ∧
        (data.node_id % data.nodes_per_cpu = 1 →
          data.svi_core_addr = config.svi_core_addr ∧ data.svi_soc_addr = 0) ∧
        (data.node_id % data.nodes_per_cpu > 1 →
          data.svi_core_addr = config.svi_core_addr ∧
          data.svi_soc_addr = config.svi_soc_addr)) ∧
      ((config.flags &&& ZEN_CFG_MULTINODE = 0 ∨ data.nodes_per_cpu = 1) →
        data.svi_core_addr = config.svi_core_addr ∧
        data.svi_soc_addr = config.svi_soc_addr) := by
  obtain ⟨data, hprobe, hnode, hnpc, _, _, _, hcore, hsoc, _, _⟩ :=
    zenpower_probe_found_fields env config halloc hcfg
  refine ⟨_, data, hprobe, rfl, hnode.trans (probe_topology_fields env).1, hnpc, ?_, ?_⟩
  · intro hM hn
    refine ⟨?_, ?_, ?_⟩
    · intro hpos
      rw [hcore, hsoc, if_pos ⟨hM, hn, hpos⟩, if_pos ⟨hM, hn, hpos⟩]
      exact ⟨rfl, rfl⟩
    · intro hpos
      rw [hcore, hsoc, if_neg (by omega), if_neg (by omega), if_pos ⟨hM, hn, hpos⟩]
      exact ⟨rfl, rfl⟩
    · intro hpos
      rw [hcore, hsoc, if_neg (by omega), if_neg (by omega), if_neg (by omega)]
      exact ⟨rfl, rfl⟩
  · intro h
    have h0 : ¬ (config.flags &&& ZEN_CFG_MULTINODE ≠ 0 ∧ data.nodes_per_cpu > 1 ∧
        data.node_id % data.nodes_per_cpu = 0) := by
      rintro ⟨hM, hn, _⟩
      rcases h with h | h
      · exact hM h
      · omega
    have h1 : ¬ (config.flags &&& ZEN_CFG_MULTINODE ≠ 0 ∧ data.nodes_per_cpu > 1 ∧
        data.node_id % data.nodes_per_cpu = 1) := by
      rintro ⟨hM, hn, _⟩
      rcases h with h | h
      · exact hM h
      · omega
    rw [hcore, hsoc, if_neg h0, if_neg h0, if_neg h1]
    exact ⟨rfl, rfl⟩

/-- Instance of C16: the 17h/31h entry with two nodes per CPU; node 0 keeps
the SoC plane at the entry's core address and node 1 keeps the core plane. -/
theorem probe_multinode_split_witness :
    (∃ (out : ProbeOut) (data : zenpower_data),
      zenpower_probe (probe_env 0x17 0x31 0x100 (some 0) (hw_const 0)) = some out ∧
      out.data = some data ∧
      data.svi_soc_addr = F17H_M30H_SVI_TEL_PLANE0 ∧ data.svi_core_addr = 0) ∧
    (∃ (out : ProbeOut) (data : zenpower_data),
      zenpower_probe (probe_env 0x17 0x31 0x100 (some 1) (hw_const 0)) = some out ∧
      out.data = some data ∧
      data.svi_core_addr = F17H_M30H_SVI_TEL_PLANE0 ∧ data.svi_soc_addr = 0) := by
  obtain ⟨config, hcfg, hc, _, hM⟩ := lookup_model_config_17h_31h
  constructor
  · obtain ⟨out, data, h1, h2, hnode, hnpc, hsplit, _⟩ :=
      probe_multinode_split (probe_env 0x17 0x31 0x100 (some 0) (hw_const 0)) config rfl hcfg
    have hnode : data.node_id = 0 := hnode
    have hn : data.nodes_per_cpu = 2 := hnpc
    have := (hsplit hM (by omega)).1 (by rw [hnode, hn])
    exact ⟨out, data, h1, h2, by rw [this.1, hc], this.2⟩
  · obtain ⟨out, data, h1, h2, hnode, hnpc, hsplit, _⟩ :=
      probe_multinode_split (probe_env 0x17 0x31 0x100 (some 1) (hw_const 0)) config rfl hcfg
    have hnode : data.node_id = 1 := hnode
    have hn : data.nodes_per_cpu = 2 := hnpc
    have := (hsplit hM (by omega)).2.1 (by rw [hnode, hn])
    exact ⟨out, data, h1, h2, by rw [this.1, hc], this.2⟩

/-- When the allocation succeeds `zenpower_probe` returns with a state whose
topology fields are those computed before the lookup, whether or not the
lookup finds an entry. -/
theorem zenpower_probe_topology (env : ProbeEnv) (halloc : env.alloc_ok = true) :
    ∃ (out : ProbeOut) (data : zenpower_data),
      zenpower_probe env = some out ∧ out.data = some data ∧
      data.node_id = (probe_topology env).node_id ∧
      data.nodes_per_cpu = 1 + ((env.cpuid_ecx >>> 8) &&& 0b111) ∧
      data.cpu_id = (data.node_id / data.nodes_per_cpu) % 2 ^ 8 := by
  cases hcfg : lookup_model_config (env.x86 % 2 ^ 8) (env.x86_model % 2 ^ 8) with
  | none =>
    obtain ⟨_, t2, t3, _⟩ := probe_topology_fields env
    have hprobe : zenpower_probe env =
        some { ret := -ENODEV, data := some (probe_topology env),
               multicpu := if (probe_topology env).cpu_id > 0 then true else env.multicpu,
               registered := false } := by
      unfold zenpower_probe
      simp only [halloc, Bool.true_eq_false, if_false, hcfg]
    exact ⟨_, probe_topology env, hprobe, rfl, rfl, t2, t3⟩
  | some config =>
    obtain ⟨data, hprobe, hnode, hnpc, hcpu, _⟩ :=
      zenpower_probe_found_fields env config halloc hcfg
    exact ⟨_, data, hprobe, rfl, hnode, hnpc, hcpu⟩

/-- C17 (as stated, refuted): for the 16-bit node id 256 and the
nodes-per-processor field 0, probe stores nodes_per_cpu = 1 and the CPU index
0, while 256 / 1 = 256: the index is cut to the 8 bits of `cpu_id`. -/
theorem probe_cpu_id_truncated :
    ∃ (out : ProbeOut) (data : zenpower_data),
      zenpower_probe (probe_env 0x17 0x01 0 (some 256) (hw_const 0)) = some out ∧
      out.data = some data ∧
      data.node_id = 256 ∧ data.nodes_per_cpu = 1 ∧ data.cpu_id = 0 ∧
      data.cpu_id ≠ data.node_id / data.nodes_per_cpu := by
  obtain ⟨out, data, h1, h2, hnode, hnpc, hcpu⟩ :=
    zenpower_probe_topology (probe_env 0x17 0x01 0 (some 256) (hw_const 0)) rfl
  have hnode2 : data.node_id = 256 := hnode.trans (probe_topology_fields _).1
  have hnpc2 : data.nodes_per_cpu = 1 := hnpc
  have hcpu2 : data.cpu_id = 0 := by
    rw [hcpu, hnode2, hnpc2]
    decide
  refine ⟨out, data, h1, h2, hnode2, hnpc2, hcpu2, ?_⟩
  rw [hcpu2, hnode2, hnpc2]
  decide

/-- C17 (amended): for every 16-bit node id and every value of the 3-bit
nodes-per-processor field, probe computes nodes_per_cpu = 1 + field, which
lies in 1..8, the stored CPU index equals (node_id / nodes_per_cpu) mod 256,
which is node_id / nodes_per_cpu whenever that quotient is below 256, and the
position within the CPU equals node_id % nodes_per_cpu and is smaller than
nodes_per_cpu. -/
theorem probe_topology_stored (env : ProbeEnv) (halloc : env.alloc_ok = true) :
    ∃ (out : ProbeOut) (data : zenpower_data),
      zenpower_probe env = some out ∧ out.data = some data ∧
      data.node_id =
        (match env.nb_node_id with
         | some id => id % 2 ^ 16
         | none => 0) ∧
      data.nodes_per_cpu = 1 + ((env.cpuid_ecx >>> 8) &&& 0b111) ∧
      1 ≤ data.nodes_per_cpu ∧ data.nodes_per_cpu ≤ 8 ∧
      data.cpu_id = (data.node_id / data.nodes_per_cpu) % 2 ^ 8 ∧
      (data.node_id / data.nodes_per_cpu < 2 ^ 8 →
        data.cpu_id = data.node_id / data.nodes_per_cpu) ∧
      probe_node_of_cpu data.node_id data.nodes_per_cpu =
        data.node_id % data.nodes_per_cpu ∧
      data.node_id % data.nodes_per_cpu < data.nodes_per_cpu := by
  obtain ⟨out, data, h1, h2, hnode, hnpc, hcpu⟩ := zenpower_probe_topology env halloc
  have hf := nodes_field_lt env.cpuid_ecx
  have hge : 1 ≤ data.nodes_per_cpu := by omega
  have hle : data.nodes_per_cpu ≤ 8 := by omega
  refine ⟨out, data, h1, h2, hnode.trans (probe_topology_fields env).1, hnpc, hge, hle,
    hcpu, ?_, probe_node_of_cpu_eq _ _ hle hge, Nat.mod_lt _ (by omega)⟩
  intro hq
  rw [hcpu]
  exact Nat.mod_eq_of_lt hq

/-- Instance of the amended C17: node id 6 with field 3 gives four nodes per
CPU, CPU index 1 and position 2. -/
theorem probe_topology_stored_witness :
    ∃ (out : ProbeOut) (data : zenpower_data),
      zenpower_probe (probe_env 0x17 0x31 0x300 (some 6) (hw_const 0)) = some out ∧
      out.data = some data ∧
      data.node_id = 6 ∧ data.nodes_per_cpu = 4 ∧ data.cpu_id = 1 ∧
      probe_node_of_cpu data.node_id data.nodes_per_cpu = 2 := by
  obtain ⟨out, data, h1, h2, hnode, hnpc, _, _, _, hcpu, hpos, _⟩ :=
    probe_topology_stored (probe_env 0x17 0x31 0x300 (some 6) (hw_const 0)) rfl
  have hnode2 : data.node_id = 6 := hnode
  have hnpc2 : data.nodes_per_cpu = 4 := hnpc
  refine ⟨out, data, h1, h2, hnode2, hnpc2, ?_, ?_⟩
  · rw [hcpu (by rw [hnode2, hnpc2]; decide), hnode2, hnpc2]
  · rw [hpos, hnode2, hnpc2]

/-! ## Visibility -/

theorem is_visible_tccd (data : zenpower_data) (attr : Nat) (j : Fin 8) :
    zenpower_is_visible data hwmon_sensor_types.hwmon_temp attr ((j.val : Int) + 2) =
      some (if data.ccd_visible j = false then 0 else 0o444) := by
  have hge : (j.val : Int) + 2 ≥ 2 := by omega
  have hsub : (j.val : Int) + 2 - 2 = (j.val : Int) := by omega
  unfold zenpower_is_visible
  simp only [hge, if_true, hsub, array_get?_fin]
  split_ifs <;> rfl

/-- C18: after a probe that found an entry with die-complex count n, for every
die-complex index i in 0..7 `zenpower_is_visible` gives temperature channel
i+2 the mode 0444 if i < n and bit 11 of the register probed for i was set,
and the mode 0 otherwise; temperature channels 0 and 1 always get 0444. -/
theorem probe_ccd_visibility (env : ProbeEnv) (config : zenpower_model_config)
    (attr : Nat) (halloc : env.alloc_ok = true)
    (hcfg : lookup_model_config (env.x86 % 2 ^ 8) (env.x86_model % 2 ^ 8) = some config) :
    ∃ (out : ProbeOut) (data : zenpower_data),
      zenpower_probe env = some out ∧ out.data = some data ∧
      (∀ i : Fin 8,
        zenpower_is_visible data hwmon_sensor_types.hwmon_temp attr ((i.val : Int) + 2) =
          some (if (i.val < config.num_ccds ∧
              env.hw.smn data.node_id
                (int_to_u32 (if data.zen5 = true then F1AH_M70H_CCD_TEMP (i.val : Int)
                  else F17H_M70H_CCD_TEMP (i.val : Int))) &&& 2 ^ 11 ≠ 0)
            then 0o444 else 0)) ∧
      zenpower_is_visible data hwmon_sensor_types.hwmon_temp attr 0 = some 0o444 ∧
      zenpower_is_visible data hwmon_sensor_types.hwmon_temp attr 1 = some 0o444 := by
  obtain ⟨data, hprobe, _, _, _, _, _, _, _, _, hvis⟩ :=
    zenpower_probe_found_fields env config halloc hcfg
  refine ⟨_, data, hprobe, rfl, ?_, ?_, ?_⟩
  · intro i
    rw [is_visible_tccd, hvis i]
    split_ifs <;> first | rfl | contradiction
  · unfold zenpower_is_visible
    rw [if_neg (by decide)]
  · unfold zenpower_is_visible
    rw [if_neg (by decide)]

/-- Instance of C18: on the 19h/21h entry (two die complexes) with every
probed register reading `0x800`, channel 2 is exposed and channel 4 hidden. -/
theorem probe_ccd_visibility_witness :
    ∃ (out : ProbeOut) (data : zenpower_data),
      zenpower_probe (probe_env 0x19 0x21 0 (some 0) (hw_const 0x800)) = some out ∧
      out.data = some data ∧
      zenpower_is_visible data hwmon_sensor_types.hwmon_temp 1 (((0 : Fin 8).val : Int) + 2) =
        some 0o444 ∧
      zenpower_is_visible data hwmon_sensor_types.hwmon_temp 1 (((2 : Fin 8).val : Int) + 2) =
        some 0 := by
  obtain ⟨out, data, h1, h2, hvis, _⟩ :=
    probe_ccd_visibility (probe_env 0x19 0x21 0 (some 0) (hw_const 0x800))
      (model_configs.get ⟨9, by decide⟩) 1 rfl rfl
  refine ⟨out, data, h1, h2, ?_, ?_⟩
  · rw [hvis 0, if_pos]
    exact ⟨by decide, (by decide : (0x800 : Nat) &&& 2 ^ 11 ≠ 0)⟩
  · rw [hvis 2, if_neg]
    intro h
    exact absurd h.1 (by decide)

/-- C19: for every runtime state, `zenpower_is_visible` returns 0 for every
voltage channel and every current channel when the zen5 flag is set, for
voltage channel 1 and current channel 0 when the resolved core address is
zero, for voltage channel 2 and current channel 1 when the resolved SoC
address is zero, and for voltage channel 0 always. -/
theorem is_visible_voltage_current (data : zenpower_data) (attr : Nat) :
    (data.zen5 = true → ∀ channel : Int,
      zenpower_is_visible data hwmon_sensor_types.hwmon_in attr channel = some 0 ∧
      zenpower_is_visible data hwmon_sensor_types.hwmon_curr attr channel = some 0) ∧
    (data.svi_core_addr = 0 →
      zenpower_is_visible data hwmon_sensor_types.hwmon_in attr 1 = some 0 ∧
      zenpower_is_visible data hwmon_sensor_types.hwmon_curr attr 0 = some 0) ∧
    (data.svi_soc_addr = 0 →
      zenpower_is_visible data hwmon_sensor_types.hwmon_in attr 2 = some 0 ∧
      zenpower_is_visible data hwmon_sensor_types.hwmon_curr attr 1 = some 0) ∧
    zenpower_is_visible data hwmon_sensor_types.hwmon_in attr 0 = some 0 := by
  refine ⟨?_, ?_, ?_, ?_⟩
  · intro hz channel
    constructor
    · unfold zenpower_is_visible
      by_cases h0 : channel = 0
      · simp only [h0, if_true]
      · simp only [h0, if_false, hz, if_true]
    · unfold zenpower_is_visible
      simp only [hz, if_true]
  · intro hc
    constructor
    · unfold zenpower_is_visible
      by_cases hz : data.zen5 = true
      · simp [hz]
      · simp [hz, hc]
    · unfold zenpower_is_visible
      by_cases hz : data.zen5 = true
      · simp [hz]
      · by_cases ha : data.amps_visible = false
        · simp [hz, ha]
        · simp [hz, ha, hc]
  · intro hs
    constructor
    · unfold zenpower_is_visible
      by_cases hz : data.zen5 = true
      · simp [hz]
      · by_cases hc : data.svi_core_addr = 0
        · simp [hz, hs, hc]
        · simp [hz, hs, hc]
    · unfold zenpower_is_visible
      by_cases hz : data.zen5 = true
      · simp [hz]
      · by_cases ha : data.amps_visible = false
        · simp [hz, ha]
        · simp [hz, ha, hs]
  · unfold zenpower_is_visible
    simp only [if_true]

/-- Instance of C19: a zen5 state hides voltage channel 1 and current channel
0; a state with the SoC address zero hides voltage channel 2 and current
channel 1. -/
theorem is_visible_voltage_current_witness :
    (zenpower_is_visible (telemetry_data true 5 6) hwmon_sensor_types.hwmon_in 1 1 = some 0 ∧
     zenpower_is_visible (telemetry_data true 5 6) hwmon_sensor_types.hwmon_curr 1 1 = some 0) ∧
    (zenpower_is_visible (telemetry_data false 5 0) hwmon_sensor_types.hwmon_in 1 2 = some 0 ∧
     zenpower_is_visible (telemetry_data false 5 0) hwmon_sensor_types.hwmon_curr 1 1 =
       some 0) :=
  ⟨(is_visible_voltage_current (telemetry_data true 5 6) 1).1 rfl 1,
   (is_visible_voltage_current (telemetry_data false 5 0) 1).2.2.1 rfl⟩

theorem lookup_model_config_1ah_70h :
    ∃ config : zenpower_model_config,
      lookup_model_config 0x1a 0x70 = some config ∧
      config.svi_core_addr = F1AH_M70H_SVI_TEL_PLANE0 ∧
      config.flags &&& ZEN_CFG_MULTINODE = 0 ∧
      config.flags &&& ZEN_CFG_RAPL ≠ 0 ∧
      config.flags &&& ZEN_CFG_NO_RAPL_CORE ≠ 0 :=
  ⟨_, rfl, rfl, by decide, by decide, by decide⟩

theorem rapl_init_ret_zero (hw : Hw) (data : zenpower_data)
    (hu : (hw.rdmsr MSR_AMD_RAPL_POWER_UNIT).1 = 0)
    (hp : (hw.rdmsr MSR_AMD_PKG_ENERGY_STATUS).1 = 0) :
    (zenpower_rapl_init hw data).1 = 0 := by
  rw [rapl_init_package_ok hw data hu hp]

/-- After the configuration block the telemetry channels are enabled unless
the entry uses energy counters and their initialisation failed. -/
theorem probe_apply_config_amps (env : ProbeEnv) (config : zenpower_model_config)
    (data : zenpower_data) :
    (probe_apply_config env config data).amps_visible =
      (if config.flags &&& ZEN_CFG_RAPL ≠ 0 ∧
          (zenpower_rapl_init env.hw (probe_apply_flags env config data)).1 ≠ 0
       then false else true) := by
  unfold probe_apply_config
  simp only
  rw [(probe_apply_multinode_frame config _ _ _).2.2.2.2.2.2]
  unfold probe_apply_rapl
  by_cases hR : config.flags &&& ZEN_CFG_RAPL ≠ 0
  · by_cases hI : (zenpower_rapl_init env.hw (probe_apply_flags env config data)).1 ≠ 0
    · rw [if_pos hR, if_pos hI, if_pos ⟨hR, hI⟩]
    · rw [if_pos hR, if_neg hI, if_neg (fun h => hI h.2), rapl_init_amps_visible]
      rfl
  · rw [if_neg hR, if_neg (fun h => hR h.1)]
    rfl

/-- C20: for every runtime state, `zenpower_is_visible` returns 0 for power
channel 0 when the resolved core address is zero, for power channel 1 when the
resolved SoC address is zero, and for power channel 1 whenever the state is
flagged as having no meaningful core energy domain; after a probe of the
1Ah/70h entry whose energy-counter initialisation succeeds (unit and package
reads succeed), power channel 0 gets 0444 and power channel 1 gets 0. -/
theorem is_visible_power (data : zenpower_data) (attr : Nat) :
    (data.svi_core_addr = 0 →
      zenpower_is_visible data hwmon_sensor_types.hwmon_power attr 0 = some 0) ∧
    (data.svi_soc_addr = 0 →
      zenpower_is_visible data hwmon_sensor_types.hwmon_power attr 1 = some 0) ∧
    (data.no_rapl_core = true →
      zenpower_is_visible data hwmon_sensor_types.hwmon_power attr 1 = some 0) ∧
    (∀ env : ProbeEnv, env.alloc_ok = true →
      env.x86 % 2 ^ 8 = 0x1a → env.x86_model % 2 ^ 8 = 0x70 →
      (env.hw.rdmsr MSR_AMD_RAPL_POWER_UNIT).1 = 0 →
      (env.hw.rdmsr MSR_AMD_PKG_ENERGY_STATUS).1 = 0 →
      ∃ (out : ProbeOut) (probed : zenpower_data),
        zenpower_probe env = some out ∧ out.data = some probed ∧
        zenpower_is_visible probed hwmon_sensor_types.hwmon_power attr 0 = some 0o444 ∧
        zenpower_is_visible probed hwmon_sensor_types.hwmon_power attr 1 = some 0) := by
  refine ⟨?_, ?_, ?_, ?_⟩
  · intro hc
    unfold zenpower_is_visible
    by_cases ha : data.amps_visible = false
    · simp [ha]
    · simp [ha, hc]
  · intro hs
    unfold zenpower_is_visible
    by_cases ha : data.amps_visible = false
    · simp [ha]
    · simp [ha, hs]
  · intro hn
    unfold zenpower_is_visible
    by_cases ha : data.amps_visible = false
    · simp [ha]
    · simp [ha, hn]
  · intro env halloc hfam hmodel hu hp
    obtain ⟨config, hcfg, hcore, hM, hR, hN⟩ := lookup_model_config_1ah_70h
    rw [← hfam, ← hmodel] at hcfg
    obtain ⟨probed, hprobe, _, _, _, _, hnrc, hsvi, _, hamps, _⟩ :=
      zenpower_probe_found_fields env config halloc hcfg
    have hinit := rapl_init_ret_zero env.hw
      (probe_apply_flags env config (probe_topology env)) hu hp
    have hamps2 : probed.amps_visible = true := by
      rw [hamps, probe_apply_config_amps, if_neg (fun h => h.2 hinit)]
    have hnrc2 : probed.no_rapl_core = true := by
      rw [hnrc, if_pos hN]
    have hsvi2 : probed.svi_core_addr = F1AH_M70H_SVI_TEL_PLANE0 := by
      rw [hsvi, if_neg (fun h => h.1 hM), hcore]
    refine ⟨_, probed, hprobe, rfl, ?_, ?_⟩
    · unfold zenpower_is_visible
      simp [hamps2, hsvi2, F1AH_M70H_SVI_TEL_PLANE0]
    · unfold zenpower_is_visible
      simp [hamps2, hnrc2]

/-- Instance of C20: a state without core address, and the probe of a
1Ah/70h part whose counter reads all succeed. -/
theorem is_visible_power_witness :
    zenpower_is_visible (telemetry_data false 0 6) hwmon_sensor_types.hwmon_power 9 0 =
      some 0 ∧
    (∃ (out : ProbeOut) (probed : zenpower_data),
      zenpower_probe (probe_env 0x1a 0x70 0 (some 0) (hw_const 0)) = some out ∧
      out.data = some probed ∧
      zenpower_is_visible probed hwmon_sensor_types.hwmon_power 9 0 = some 0o444 ∧
      zenpower_is_visible probed hwmon_sensor_types.hwmon_power 9 1 = some 0) :=
  ⟨(is_visible_power (telemetry_data false 0 6) 9).1 rfl,
   (is_visible_power blank_data 9).2.2.2 (probe_env 0x1a 0x70 0 (some 0) (hw_const 0))
     rfl rfl rfl rfl rfl⟩

/-! ## Energy counter arithmetic -/

theorem rapl_energy_delta_lt (prev_energy energy_now : Nat)
    (hp : prev_energy < 2 ^ 32) (hn : energy_now < 2 ^ 32) :
    rapl_energy_delta prev_energy energy_now < 2 ^ 32 := by
  unfold rapl_energy_delta wrap_u64
  split_ifs <;> omega

theorem rapl_product_lt (delta energy_unit : Nat) (hd : delta < 2 ^ 32)
    (hu : energy_unit ≤ 1000000) : delta * energy_unit * 1000 < 2 ^ 63 := by
  have h1 : delta * energy_unit ≤ 2 ^ 32 * 1000000 := Nat.mul_le_mul (by omega) hu
  omega

/-- C27: in `zenpower_rapl_read_power`, whenever the stored baseline and the
current counter value are both below `2^32`, the energy delta is below `2^32`
and, for every unit scale of at most 1,000,000 (as every scale the
initialisation computes is), the product energy_delta × scale × 1000 is below
`2^63`: the two 64-bit multiplications do not wrap, and every successful read
reports a non-negative value below `2^63`. -/
theorem rapl_power_no_overflow (hw : Hw) (data : zenpower_data) (c : Fin 2)
    (hp : data.rapl_prev_energy c < 2 ^ 32)
    (hn : (hw.rdmsr (if (c.val : Int) = 0 then MSR_AMD_PKG_ENERGY_STATUS
      else MSR_AMD_PP0_ENERGY_STATUS)).2 < 2 ^ 32)
    (hu : data.rapl_energy_unit ≤ 1000000) :
    rapl_energy_delta (data.rapl_prev_energy c)
      (hw.rdmsr (if (c.val : Int) = 0 then MSR_AMD_PKG_ENERGY_STATUS
        else MSR_AMD_PP0_ENERGY_STATUS)).2 < 2 ^ 32 ∧
    rapl_energy_delta (data.rapl_prev_energy c)
      (hw.rdmsr (if (c.val : Int) = 0 then MSR_AMD_PKG_ENERGY_STATUS
        else MSR_AMD_PP0_ENERGY_STATUS)).2 * data.rapl_energy_unit * 1000 < 2 ^ 63 ∧
    wrap_u64 (wrap_u64 (rapl_energy_delta (data.rapl_prev_energy c)
      (hw.rdmsr (if (c.val : Int) = 0 then MSR_AMD_PKG_ENERGY_STATUS
        else MSR_AMD_PP0_ENERGY_STATUS)).2 * data.rapl_energy_unit) * 1000) =
      rapl_energy_delta (data.rapl_prev_energy c)
        (hw.rdmsr (if (c.val : Int) = 0 then MSR_AMD_PKG_ENERGY_STATUS
          else MSR_AMD_PP0_ENERGY_STATUS)).2 * data.rapl_energy_unit * 1000 ∧
    (∀ (unit_hw : Hw) (before : zenpower_data),
      (unit_hw.rdmsr MSR_AMD_RAPL_POWER_UNIT).1 = 0 →
      (zenpower_rapl_init unit_hw before).2.rapl_energy_unit ≤ 1000000) ∧
    (∀ out : ReadOut, zenpower_rapl_read_power hw data c.val = some out → out.ret = 0 →
      ∃ v : Int, out.val = some v ∧ 0 ≤ v ∧ v < 2 ^ 63) := by
  have hd := rapl_energy_delta_lt _ _ hp hn
  have hprod := rapl_product_lt _ _ hd hu
  have hagain : (-EAGAIN : Int) ≠ 0 := by decide
  refine ⟨hd, hprod, ?_, ?_, ?_⟩
  · generalize rapl_energy_delta (data.rapl_prev_energy c)
      (hw.rdmsr (if (c.val : Int) = 0 then MSR_AMD_PKG_ENERGY_STATUS
        else MSR_AMD_PP0_ENERGY_STATUS)).2 * data.rapl_energy_unit = product at hprod ⊢
    unfold wrap_u64
    omega
  · intro unit_hw before hunit
    have hscale := energy_unit_scale_eq _
      (energy_unit_field_lt (unit_hw.rdmsr MSR_AMD_RAPL_POWER_UNIT).2)
    by_cases hpkg : (unit_hw.rdmsr MSR_AMD_PKG_ENERGY_STATUS).1 = 0
    · rw [rapl_init_package_ok unit_hw before hunit hpkg]
      exact hscale.2.2
    · rw [rapl_init_package_failed unit_hw before hunit hpkg]
      exact hscale.2.2
  · intro out hout hret
    by_cases hinit : data.rapl_initialized = true
    · by_cases herr : (hw.rdmsr (if (c.val : Int) = 0 then MSR_AMD_PKG_ENERGY_STATUS
          else MSR_AMD_PP0_ENERGY_STATUS)).1 = 0
      · rw [rapl_read_power_ready hw data c hinit herr] at hout
        by_cases hms :
            int_to_u32 (ktime_to_ms (int_to_s64 (hw.ktime - data.rapl_prev_time c))) = 0
        · rw [if_pos hms] at hout
          cases hout
          exact absurd hret hagain
        · rw [if_neg hms] at hout
          cases hout
          refine ⟨_, rfl, ?_⟩
          rw [power_value_exact _ _ hprod]
          have hq := Nat.div_le_self
            (rapl_energy_delta (data.rapl_prev_energy c)
              (hw.rdmsr (if (c.val : Int) = 0 then MSR_AMD_PKG_ENERGY_STATUS
                else MSR_AMD_PP0_ENERGY_STATUS)).2 * data.rapl_energy_unit * 1000)
            (int_to_u32 (ktime_to_ms (int_to_s64 (hw.ktime - data.rapl_prev_time c))))
          have hcast : ((rapl_energy_delta (data.rapl_prev_energy c)
              (hw.rdmsr (if (c.val : Int) = 0 then MSR_AMD_PKG_ENERGY_STATUS
                else MSR_AMD_PP0_ENERGY_STATUS)).2 * data.rapl_energy_unit * 1000 : Nat) : Int) /
              ((int_to_u32 (ktime_to_ms (int_to_s64 (hw.ktime - data.rapl_prev_time c))) : Nat) : Int) =
              ((rapl_energy_delta (data.rapl_prev_energy c)
                (hw.rdmsr (if (c.val : Int) = 0 then MSR_AMD_PKG_ENERGY_STATUS
                  else MSR_AMD_PP0_ENERGY_STATUS)).2 * data.rapl_energy_unit * 1000 /
                int_to_u32 (ktime_to_ms (int_to_s64 (hw.ktime - data.rapl_prev_time c))) : Nat) : Int) := by
            norm_cast
          rw [hcast]
          generalize rapl_energy_delta (data.rapl_prev_energy c)
            (hw.rdmsr (if (c.val : Int) = 0 then MSR_AMD_PKG_ENERGY_STATUS
              else MSR_AMD_PP0_ENERGY_STATUS)).2 * data.rapl_energy_unit * 1000 /
            int_to_u32 (ktime_to_ms (int_to_s64 (hw.ktime - data.rapl_prev_time c))) = q at hq ⊢
          omega
      · unfold zenpower_rapl_read_power at hout
        simp only [hinit, Bool.true_eq_false, if_false, ne_eq, herr, not_false_eq_true,
          if_true] at hout
        cases hout
        exact absurd hret herr
    · unfold zenpower_rapl_read_power at hout
      have hfalse : data.rapl_initialized = false := by
        cases hi : data.rapl_initialized
        · rfl
        · exact absurd hi hinit
      rw [if_pos hfalse] at hout
      cases hout
      exact absurd hret hagain

/-- Instance of C27: the largest 32-bit delta with the largest scale, read
after 1 ms. -/
theorem rapl_power_no_overflow_witness :
    rapl_energy_delta ((rapl_ready_data 1000000).rapl_prev_energy 0)
      ((hw_rapl (2 ^ 32 - 1) 1000000).rdmsr MSR_AMD_PKG_ENERGY_STATUS).2 *
        1000000 * 1000 < 2 ^ 63 :=
  (rapl_power_no_overflow (hw_rapl (2 ^ 32 - 1) 1000000) (rapl_ready_data 1000000) 0
    (by decide) (by decide) (by decide)).2.1

/-! ## Array bounds -/

/-- C26: every entry of the model configuration table has a die-complex count
of at most 8; hence for every entry the probing loop, which writes the bitmap
at indices below the count only, runs to its end without a write outside the
8-element array, and `zenpower_is_visible` reads inside the array for every
temperature channel 2..9. -/
theorem ccd_visible_in_bounds :
    (∀ e ∈ model_configs, e.num_ccds ≤ 8) ∧
    (∀ e ∈ model_configs, ∀ (hw : Hw) (data : zenpower_data),
      ∃ probed : zenpower_data, probe_ccd_loop hw e.num_ccds 0 data = some probed) ∧
    (∀ (data : zenpower_data) (attr : Nat) (channel : Int), 2 ≤ channel → channel ≤ 9 →
      ∃ mode : Nat,
        zenpower_is_visible data hwmon_sensor_types.hwmon_temp attr channel = some mode ∧
        ∃ j : Fin 8, (j.val : Int) = channel - 2 ∧
          array_get? data.ccd_visible (channel - 2) = some (data.ccd_visible j)) := by
  refine ⟨model_configs_num_ccds_le, ?_, ?_⟩
  · intro e he hw data
    exact ⟨_, probe_ccd_loop_eq hw e.num_ccds 0 data
      (by have := model_configs_num_ccds_le e he; omega)⟩
  · intro data attr channel h2 h9
    obtain ⟨j, hj⟩ : ∃ j : Fin 8, (j.val : Int) + 2 = channel :=
      ⟨⟨(channel - 2).toNat, by omega⟩, by simp only; omega⟩
    subst hj
    refine ⟨_, is_visible_tccd data attr j, j, by omega, ?_⟩
    have hsub : (j.val : Int) + 2 - 2 = (j.val : Int) := by omega
    rw [hsub, array_get?_fin]

/-- Instance of C26: temperature channel 9 reads element 7 of the bitmap. -/
theorem ccd_visible_in_bounds_witness :
    ∃ mode : Nat,
      zenpower_is_visible blank_data hwmon_sensor_types.hwmon_temp 1 9 = some mode ∧
      ∃ j : Fin 8, (j.val : Int) = 9 - 2 ∧
        array_get? blank_data.ccd_visible (9 - 2) = some (blank_data.ccd_visible j) :=
  ccd_visible_in_bounds.2.2 blank_data 1 9 (by decide) (by decide)

/-! ## Probe failures -/

/-- C22: for every detected (family, model) pair for which the lookup returns
`NULL`, `zenpower_probe` does not call the registration and fails: with
`-ENODEV` when the allocation succeeded, the state then holding no
configuration (both telemetry addresses zero, telemetry channels disabled, no
die complex visible). -/
theorem probe_unknown_model_fails (env : ProbeEnv)
    (hcfg : lookup_model_config (env.x86 % 2 ^ 8) (env.x86_model % 2 ^ 8) = none) :
    ∃ out : ProbeOut, zenpower_probe env = some out ∧ out.registered = false ∧
      out.ret ≠ 0 ∧
      (env.alloc_ok = true →
        out.ret = -ENODEV ∧
        ∃ data : zenpower_data, out.data = some data ∧
          data.svi_core_addr = 0 ∧ data.svi_soc_addr = 0 ∧ data.amps_visible = false ∧
          data.ccd_visible = (fun _ => false)) := by
  by_cases halloc : env.alloc_ok = true
  · have hprobe : zenpower_probe env =
        some { ret := -ENODEV, data := some (probe_topology env),
               multicpu := if (probe_topology env).cpu_id > 0 then true else env.multicpu,
               registered := false } := by
      unfold zenpower_probe
      simp only [halloc, Bool.true_eq_false, if_false, hcfg]
    refine ⟨_, hprobe, rfl, (by decide : (-ENODEV : Int) ≠ 0),
      fun _ => ⟨rfl, probe_topology env, rfl, ?_⟩⟩
    unfold probe_topology
    cases env.nb_node_id <;> exact ⟨rfl, rfl, rfl, rfl⟩
  · have hfalse : env.alloc_ok = false := by
      cases h : env.alloc_ok
      · rfl
      · exact absurd h halloc
    have hprobe : zenpower_probe env =
        some { ret := -ENOMEM, data := none, multicpu := env.multicpu,
               registered := false } := by
      unfold zenpower_probe
      rw [if_pos hfalse]
    exact ⟨_, hprobe, rfl, (by decide : (-ENOMEM : Int) ≠ 0), fun h => absurd h halloc⟩

/-- Instance of C22: the pair (17h, 02h) is in no entry of the table. -/
theorem probe_unknown_model_fails_witness :
    ∃ out : ProbeOut,
      zenpower_probe (probe_env 0x17 0x02 0 (some 0) (hw_const 0)) = some out ∧
      out.registered = false ∧ out.ret = -ENODEV := by
  obtain ⟨out, h1, h2, _, h4⟩ :=
    probe_unknown_model_fails (probe_env 0x17 0x02 0 (some 0) (hw_const 0)) (by decide)
  exact ⟨out, h1, h2, (h4 rfl).1⟩

/-! ## Unavailable energy channel -/

theorem probe_apply_multinode_initialized (config : zenpower_model_config) (multinode : Bool)
    (node_of_cpu : Nat) (data : zenpower_data) :
    (probe_apply_multinode config multinode node_of_cpu data).rapl_initialized =
      data.rapl_initialized := by
  unfold probe_apply_multinode
  split_ifs <;> rfl

theorem probe_topology_initialized (env : ProbeEnv) :
    (probe_topology env).rapl_initialized = false := by
  unfold probe_topology
  cases env.nb_node_id <;> rfl

/-- The state registered by a probe of an entry that uses energy counters,
when the unit read succeeds and the package baseline read fails. -/
theorem probe_rapl_package_failed (env : ProbeEnv) (config : zenpower_model_config)
    (halloc : env.alloc_ok = true)
    (hcfg : lookup_model_config (env.x86 % 2 ^ 8) (env.x86_model % 2 ^ 8) = some config)
    (hrapl : config.flags &&& ZEN_CFG_RAPL ≠ 0)
    (hu : (env.hw.rdmsr MSR_AMD_RAPL_POWER_UNIT).1 = 0)
    (hp : (env.hw.rdmsr MSR_AMD_PKG_ENERGY_STATUS).1 ≠ 0) :
    ∃ data : zenpower_data,
      zenpower_probe env =
        some { ret := env.register_ret, data := some data,
               multicpu := if (probe_topology env).cpu_id > 0 then true else env.multicpu,
               registered := true } ∧
      data.amps_visible = false ∧ data.rapl_initialized = false := by
  obtain ⟨data, hprobe, hdata⟩ := zenpower_probe_found env config halloc hcfg
  have hfail : (zenpower_rapl_init env.hw
      (probe_apply_flags env config (probe_topology env))).1 ≠ 0 := by
    rw [rapl_init_package_failed _ _ hu hp]
    exact hp
  refine ⟨data, hprobe, ?_, ?_⟩
  · rw [(congrArg zenpower_data.amps_visible hdata :), probe_apply_config_amps,
      if_pos ⟨hrapl, hfail⟩]
  · rw [(congrArg zenpower_data.rapl_initialized hdata :)]
    unfold probe_apply_config
    simp only
    rw [probe_apply_multinode_initialized]
    unfold probe_apply_rapl
    rw [if_pos hrapl, if_pos hfail, rapl_init_package_failed _ _ hu hp]
    exact probe_topology_initialized env

/-- C23 (as stated, refuted): on the 1Ah/70h entry, which uses energy
counters, with the package baseline read failing, `zenpower_probe` still
calls the registration and returns its code 0. -/
theorem probe_attaches_without_package_energy :
    (hw_pkg_fail.rdmsr MSR_AMD_PKG_ENERGY_STATUS).1 ≠ 0 ∧
    (zenpower_rapl_init hw_pkg_fail
      (probe_apply_flags (probe_env 0x1a 0x70 0 (some 0) hw_pkg_fail)
        (model_configs.get ⟨11, by decide⟩)
        (probe_topology (probe_env 0x1a 0x70 0 (some 0) hw_pkg_fail)))).1 = -5 ∧
    ∃ out : ProbeOut,
      zenpower_probe (probe_env 0x1a 0x70 0 (some 0) hw_pkg_fail) = some out ∧
      out.ret = 0 ∧ out.registered = true := by
  refine ⟨by decide, ?_, ?_⟩
  · rw [rapl_init_package_failed _ _ rfl (by decide)]
    rfl
  · obtain ⟨data, hprobe, _⟩ :=
      probe_rapl_package_failed (probe_env 0x1a 0x70 0 (some 0) hw_pkg_fail)
        (model_configs.get ⟨11, by decide⟩) rfl rfl (by decide) rfl (by decide)
    exact ⟨_, hprobe, rfl, rfl⟩

/-- C23 (amended): on a configuration that uses energy counters, if the
baseline package-energy read fails during initialisation (the unit read having
succeeded), `zenpower_rapl_init` fails and the tracker stays uninitialised,
and `zenpower_probe` only disables the telemetry channels: it clears
`amps_visible`, so that every current and power channel is hidden, still calls
the registration and returns its result. -/
theorem probe_degrades_without_package_energy (env : ProbeEnv)
    (config : zenpower_model_config) (halloc : env.alloc_ok = true)
    (hcfg : lookup_model_config (env.x86 % 2 ^ 8) (env.x86_model % 2 ^ 8) = some config)
    (hrapl : config.flags &&& ZEN_CFG_RAPL ≠ 0)
    (hu : (env.hw.rdmsr MSR_AMD_RAPL_POWER_UNIT).1 = 0)
    (hp : (env.hw.rdmsr MSR_AMD_PKG_ENERGY_STATUS).1 ≠ 0) :
    (zenpower_rapl_init env.hw (probe_apply_flags env config (probe_topology env))).1 =
      (env.hw.rdmsr MSR_AMD_PKG_ENERGY_STATUS).1 ∧
    ∃ (out : ProbeOut) (data : zenpower_data),
      zenpower_probe env = some out ∧ out.data = some data ∧
      out.registered = true ∧ out.ret = env.register_ret ∧
      data.amps_visible = false ∧ data.rapl_initialized = false ∧
      (∀ (attr : Nat) (channel : Int),
        zenpower_is_visible data hwmon_sensor_types.hwmon_power attr channel = some 0 ∧
        zenpower_is_visible data hwmon_sensor_types.hwmon_curr attr channel = some 0) := by
  constructor
  · rw [rapl_init_package_failed _ _ hu hp]
  · obtain ⟨data, hprobe, hamps, hinit⟩ :=
      probe_rapl_package_failed env config halloc hcfg hrapl hu hp
    refine ⟨_, data, hprobe, rfl, rfl, rfl, hamps, hinit, ?_⟩
    intro attr channel
    constructor
    · unfold zenpower_is_visible
      simp only [hamps, if_true]
    · unfold zenpower_is_visible
      by_cases hz : data.zen5 = true
      · simp only [hz, if_true]
      · simp only [hz, if_false, hamps, if_true, ite_self]

/-- Instance of the amended C23: the 1Ah/70h entry with the package read
failing with -5. -/
theorem probe_degrades_without_package_energy_witness :
    ∃ (out : ProbeOut) (data : zenpower_data),
      zenpower_probe (probe_env 0x1a 0x70 0 (some 0) hw_pkg_fail) = some out ∧
      out.data = some data ∧ out.registered = true ∧ data.amps_visible = false ∧
      zenpower_is_visible data hwmon_sensor_types.hwmon_power 9 0 = some 0 := by
  obtain ⟨out, data, h1, h2, h3, _, h5, _, h7⟩ :=
    (probe_degrades_without_package_energy (probe_env 0x1a 0x70 0 (some 0) hw_pkg_fail)
      (model_configs.get ⟨11, by decide⟩) rfl rfl (by decide) rfl (by decide)).2
  exact ⟨out, data, h1, h2, h3, h5, (h7 9 0).1⟩

/-! ## Die-complex register addresses -/

theorem lookup_table_entry (e : zenpower_model_config) (he : e ∈ model_configs)
    (hne : e.family ≠ 0) : lookup_model_config e.family e.model = some e := by
  simp only [model_configs, List.mem_cons, List.mem_singleton, List.not_mem_nil,
    or_false] at he
  rcases he with rfl | rfl | rfl | rfl | rfl | rfl | rfl | rfl | rfl | rfl | rfl | rfl | rfl
  all_goals first
    | rfl
    | exact absurd rfl hne

/-- In every entry of the table the base field is the base of the address
macro that the generation flag of the entry selects. -/
theorem model_configs_ccd_temp_base : ∀ e ∈ model_configs, e.family ≠ 0 →
    e.ccd_temp_base = (if e.flags &&& ZEN_CFG_IS_ZEN5 ≠ 0 then 0x00059b08 else 0x00059954) := by
  decide

theorem ccd_temp_addr_f17h (i : Nat) (hi : i < 8) :
    int_to_u32 (F17H_M70H_CCD_TEMP (i : Int)) = 0x00059954 + 4 * i := by
  interval_cases i <;> rfl

theorem ccd_temp_addr_f1ah (i : Nat) (hi : i < 8) :
    int_to_u32 (F1AH_M70H_CCD_TEMP (i : Int)) = 0x00059b08 + 4 * i := by
  interval_cases i <;> rfl

/-- The read of a die-complex temperature channel in terms of the address
macro selected by the generation flag. -/
theorem read_tccd_channel (A : hwmon_attr_ids) (hw : Hw) (data : zenpower_data) (i : Fin 8) :
    zenpower_read A hw data hwmon_sensor_types.hwmon_temp A.hwmon_temp_input
        ((i.val : Int) + 2) =
      some { ret := 0,
             val := some (u32_to_long (zenpower_temp_get_ccd hw data
               (int_to_u32 (if data.zen5 = true then F1AH_M70H_CCD_TEMP (i.val : Int)
                 else F17H_M70H_CCD_TEMP (i.val : Int))))),
             data := data } := by
  have h0 : ¬ ((i.val : Int) + 2 = 0) := by omega
  have h1 : ¬ ((i.val : Int) + 2 = 1) := by omega
  have h2 : 2 ≤ (i.val : Int) + 2 ∧ (i.val : Int) + 2 ≤ 9 := by omega
  have hsub : (i.val : Int) + 2 - 2 = (i.val : Int) := by omega
  unfold zenpower_read
  simp only [if_true, if_neg h0, if_neg h1, if_pos h2, hsub]
  by_cases hz : data.zen5 = true
  · rw [if_pos hz, if_pos hz]
  · rw [if_neg hz, if_neg hz]

/-- C24: for every entry of the model configuration table (the entries before
the sentinel) and every die-complex index i in 0..7, on a node probed with
that entry the register address selected through the zen5 flag equals the
entry's `ccd_temp_base + 4*i`; it is the address whose bit 11 decides the
visibility of die-complex i in the probing loop, and the address
`zenpower_read` passes to `zenpower_temp_get_ccd` for temperature input
channel i+2. -/
theorem ccd_temp_address_is_base_plus_index (A : hwmon_attr_ids) (hw : Hw) (env : ProbeEnv)
    (e : zenpower_model_config) (he : e ∈ model_configs) (hne : e.family ≠ 0)
    (halloc : env.alloc_ok = true)
    (hfamily : env.x86 % 2 ^ 8 = e.family) (hmodel : env.x86_model % 2 ^ 8 = e.model) :
    ∃ (out : ProbeOut) (data : zenpower_data),
      zenpower_probe env = some out ∧ out.data = some data ∧
      ∀ i : Fin 8,
        int_to_u32 (if data.zen5 = true then F1AH_M70H_CCD_TEMP (i.val : Int)
          else F17H_M70H_CCD_TEMP (i.val : Int)) = e.ccd_temp_base + 4 * i.val ∧
        data.ccd_visible i =
          (if (i.val < e.num_ccds ∧
              env.hw.smn data.node_id (e.ccd_temp_base + 4 * i.val) &&& 2 ^ 11 ≠ 0)
           then true else false) ∧
        zenpower_read A hw data hwmon_sensor_types.hwmon_temp A.hwmon_temp_input
            ((i.val : Int) + 2) =
          some { ret := 0,
                 val := some (u32_to_long
                   (zenpower_temp_get_ccd hw data (e.ccd_temp_base + 4 * i.val))),
                 data := data } := by
  have hcfg : lookup_model_config (env.x86 % 2 ^ 8) (env.x86_model % 2 ^ 8) = some e := by
    rw [hfamily, hmodel]
    exact lookup_table_entry e he hne
  obtain ⟨data, hprobe, _, _, _, hzen5, _, _, _, _, hvis⟩ :=
    zenpower_probe_found_fields env e halloc hcfg
  have hbase := model_configs_ccd_temp_base e he hne
  have haddr : ∀ i : Fin 8,
      int_to_u32 (if data.zen5 = true then F1AH_M70H_CCD_TEMP (i.val : Int)
        else F17H_M70H_CCD_TEMP (i.val : Int)) = e.ccd_temp_base + 4 * i.val := by
    intro i
    by_cases hflag : e.flags &&& ZEN_CFG_IS_ZEN5 ≠ 0
    · rw [if_pos hflag] at hzen5 hbase
      rw [if_pos hzen5, hbase]
      exact ccd_temp_addr_f1ah i.val i.isLt
    · rw [if_neg hflag] at hzen5 hbase
      rw [if_neg (by rw [hzen5]; decide), hbase]
      exact ccd_temp_addr_f17h i.val i.isLt
  refine ⟨_, data, hprobe, rfl, ?_⟩
  intro i
  refine ⟨haddr i, ?_, ?_⟩
  · rw [hvis i, haddr i]
  · rw [read_tccd_channel, haddr i]

/-- Instance of C24: the 1Ah/70h entry, die-complex 3: the address is
`0x59b08 + 12`, probed at initialisation and read for channel 5. -/
theorem ccd_temp_address_is_base_plus_index_witness :
    ∃ (out : ProbeOut) (data : zenpower_data),
      zenpower_probe (probe_env 0x1a 0x70 0 (some 0) (hw_const 0x800)) = some out ∧
      out.data = some data ∧
      int_to_u32 (if data.zen5 = true then F1AH_M70H_CCD_TEMP (((3 : Fin 8).val : Nat) : Int)
        else F17H_M70H_CCD_TEMP (((3 : Fin 8).val : Nat) : Int)) = 0x00059b08 + 12 := by
  obtain ⟨out, data, h1, h2, h3⟩ :=
    ccd_temp_address_is_base_plus_index linux_hwmon_attr_ids (hw_const 0x800)
      (probe_env 0x1a 0x70 0 (some 0) (hw_const 0x800))
      (model_configs.get ⟨11, by decide⟩) (List.get_mem _ _ _) (by decide) rfl rfl rfl
  exact ⟨out, data, h1, h2, (h3 3).1⟩

/-! ## Undeclared channels -/

/-- The attribute test of the part shared by voltage, current and power
rejects an attribute that is none of the three input attributes. -/
theorem read_plane_other_attr (A : hwmon_attr_ids) (hw : Hw) (data : zenpower_data)
    (type : hwmon_sensor_types) (attr : Nat) (channel : Int)
    (h : attr ≠ A.hwmon_in_input ∧ attr ≠ A.hwmon_curr_input ∧
      attr ≠ A.hwmon_power_input) :
    zenpower_read_plane A hw data type attr channel =
      some { ret := -EOPNOTSUPP, val := none, data := data } := by
  unfold zenpower_read_plane
  rw [if_pos h]

/-- The part shared by voltage, current and power rejects a channel other
than 0 and 1, unless the read is a power read on energy-counter hardware. -/
theorem read_plane_other_channel (A : hwmon_attr_ids) (hw : Hw) (data : zenpower_data)
    (type : hwmon_sensor_types) (attr : Nat) (channel : Int)
    (hz : ¬ (type = hwmon_sensor_types.hwmon_power ∧ data.zen5 = true))
    (h0 : channel ≠ 0) (h1 : channel ≠ 1) :
    zenpower_read_plane A hw data type attr channel =
      some { ret := -EOPNOTSUPP, val := none, data := data } := by
  unfold zenpower_read_plane
  by_cases ha : attr ≠ A.hwmon_in_input ∧ attr ≠ A.hwmon_curr_input ∧
      attr ≠ A.hwmon_power_input
  · rw [if_pos ha]
  · rw [if_neg ha, if_neg hz]
    simp only [if_neg h0, if_neg h1]

/-- The part shared by voltage, current and power treats the three input
attributes alike. -/
theorem read_plane_attr_irrelevant (A : hwmon_attr_ids) (hw : Hw) (data : zenpower_data)
    (type : hwmon_sensor_types) (attr attr2 : Nat) (channel : Int)
    (h : attr = A.hwmon_in_input ∨ attr = A.hwmon_curr_input ∨ attr = A.hwmon_power_input)
    (h2 : attr2 = A.hwmon_in_input ∨ attr2 = A.hwmon_curr_input ∨
      attr2 = A.hwmon_power_input) :
    zenpower_read_plane A hw data type attr channel =
      zenpower_read_plane A hw data type attr2 channel := by
  have hn : ¬ (attr ≠ A.hwmon_in_input ∧ attr ≠ A.hwmon_curr_input ∧
      attr ≠ A.hwmon_power_input) := by
    rintro ⟨a, b, c⟩
    rcases h with h | h | h
    · exact a h
    · exact b h
    · exact c h
  have hn2 : ¬ (attr2 ≠ A.hwmon_in_input ∧ attr2 ≠ A.hwmon_curr_input ∧
      attr2 ≠ A.hwmon_power_input) := by
    rintro ⟨a, b, c⟩
    rcases h2 with h | h | h
    · exact a h
    · exact b h
    · exact c h
  unfold zenpower_read_plane
  rw [if_neg hn, if_neg hn2]

/-- C21 (as stated, refuted): with the attribute numbering of the kernel
header, temperature max on channel 1 is not a declared channel and
`zenpower_read` answers it with 95000; power input on channel 2 is not a
declared channel and on energy-counter hardware `zenpower_read` passes it to
the energy tracker, which answers -EAGAIN while it is uninitialised and reads
outside its two-element arrays once it is initialised. -/
theorem read_answers_undeclared_channels :
    (¬ declared_channel linux_hwmon_attr_ids hwmon_sensor_types.hwmon_temp 7 1 ∧
      ∃ out : ReadOut,
        zenpower_read linux_hwmon_attr_ids (hw_const 0) blank_data
          hwmon_sensor_types.hwmon_temp 7 1 = some out ∧
        out.ret = 0 ∧ out.val = some 95000) ∧
    (¬ declared_channel linux_hwmon_attr_ids hwmon_sensor_types.hwmon_power 9 2 ∧
      (∃ out : ReadOut,
        zenpower_read linux_hwmon_attr_ids (hw_const 0) (telemetry_data true 0 0)
          hwmon_sensor_types.hwmon_power 9 2 = some out ∧
        out.ret = -11 ∧ out.ret ≠ -EOPNOTSUPP) ∧
      (zenpower_read linux_hwmon_attr_ids (hw_rapl 0 10000000)
          { rapl_ready_data 15 with zen5 := true }
          hwmon_sensor_types.hwmon_power 9 2).isNone = true) := by
  refine ⟨⟨?_, ⟨_, rfl, rfl, rfl⟩⟩, ?_, ⟨_, rfl, rfl, by decide⟩, ?_⟩
  · unfold declared_channel
    decide
  · unfold declared_channel
    decide
  · rfl

/-- C21 (amended): for every (kind, attribute, channel) combination that is
not one of the declared sensor channels, `zenpower_read` returns -EOPNOTSUPP,
stores no value and leaves the state unchanged, in every runtime state, except
for three combinations that it answers: temperature max on any channel (the
channel is not examined, the value is 95000); a voltage, current or power read
whose attribute is the input attribute of another of these three kinds (it is
handled exactly like the input attribute of the kind itself); and a power
input read on energy-counter (zen5) hardware, which goes to
`zenpower_rapl_read_power` on any channel. -/
theorem read_undeclared_not_supported (A : hwmon_attr_ids) (hw : Hw) (data : zenpower_data)
    (type : hwmon_sensor_types) (attr : Nat) (channel : Int)
    (hnd : ¬ declared_channel A type attr channel) :
    (¬ (type = hwmon_sensor_types.hwmon_temp ∧ attr = A.hwmon_temp_max) →
      (type = hwmon_sensor_types.hwmon_in →
        attr = A.hwmon_in_input ∨
          (attr ≠ A.hwmon_curr_input ∧ attr ≠ A.hwmon_power_input)) →
      (type = hwmon_sensor_types.hwmon_curr →
        attr = A.hwmon_curr_input ∨
          (attr ≠ A.hwmon_in_input ∧ attr ≠ A.hwmon_power_input)) →
      (type = hwmon_sensor_types.hwmon_power →
        attr = A.hwmon_power_input ∨
          (attr ≠ A.hwmon_in_input ∧ attr ≠ A.hwmon_curr_input)) →
      ¬ (type = hwmon_sensor_types.hwmon_power ∧ data.zen5 = true ∧
          attr = A.hwmon_power_input) →
      zenpower_read A hw data type attr channel =
        some { ret := -EOPNOTSUPP, val := none, data := data }) ∧
    (type = hwmon_sensor_types.hwmon_temp → attr = A.hwmon_temp_max →
      attr ≠ A.hwmon_temp_input →
      zenpower_read A hw data type attr channel =
        some { ret := 0, val := some 95000, data := data }) ∧
    (type = hwmon_sensor_types.hwmon_in ∨ type = hwmon_sensor_types.hwmon_curr ∨
        type = hwmon_sensor_types.hwmon_power →
      attr = A.hwmon_in_input ∨ attr = A.hwmon_curr_input ∨ attr = A.hwmon_power_input →
      zenpower_read A hw data type attr channel =
        zenpower_read A hw data type
          (match type with
            | hwmon_sensor_types.hwmon_in => A.hwmon_in_input
            | hwmon_sensor_types.hwmon_curr => A.hwmon_curr_input
            | _ => A.hwmon_power_input) channel) ∧
    (type = hwmon_sensor_types.hwmon_power → data.zen5 = true →
      attr = A.hwmon_power_input →
      zenpower_read A hw data type attr channel =
        zenpower_rapl_read_power hw data channel) := by
  refine ⟨?_, ?_, ?_, ?_⟩
  · intro hmax hin hcurr hpower hzen5
    cases type
    case hwmon_temp =>
      have hmax2 : attr ≠ A.hwmon_temp_max := fun h => hmax ⟨rfl, h⟩
      unfold zenpower_read
      simp only
      by_cases hi : attr = A.hwmon_temp_input
      · have hch : ¬ (0 ≤ channel ∧ channel ≤ 9) :=
          fun h => hnd (Or.inl ⟨rfl, hi, h.1, h.2⟩)
        rw [if_pos hi, if_neg (by omega), if_neg (by omega), if_neg (by omega)]
      · rw [if_neg hi, if_neg hmax2]
    case hwmon_in =>
      unfold zenpower_read
      simp only
      by_cases h0 : channel = 0
      · rw [if_pos h0]
      · rw [if_neg h0]
        rcases hin rfl with ha | ⟨hb, hc⟩
        · have hch : ¬ (1 ≤ channel ∧ channel ≤ 2) :=
            fun h => hnd (Or.inr (Or.inr (Or.inl ⟨rfl, ha, h.1, h.2⟩)))
          exact read_plane_other_channel A hw data _ attr (channel - 1)
            (fun h => by cases h.1) (by omega) (by omega)
        · by_cases ha : attr = A.hwmon_in_input
          · have hch : ¬ (1 ≤ channel ∧ channel ≤ 2) :=
              fun h => hnd (Or.inr (Or.inr (Or.inl ⟨rfl, ha, h.1, h.2⟩)))
            exact read_plane_other_channel A hw data _ attr (channel - 1)
              (fun h => by cases h.1) (by omega) (by omega)
          · exact read_plane_other_attr A hw data _ attr (channel - 1) ⟨ha, hb, hc⟩
    case hwmon_curr =>
      unfold zenpower_read
      simp only
      by_cases ha : attr = A.hwmon_curr_input
      · have hch : ¬ (0 ≤ channel ∧ channel ≤ 1) :=
          fun h => hnd (Or.inr (Or.inr (Or.inr (Or.inl ⟨rfl, ha, h.1, h.2⟩))))
        exact read_plane_other_channel A hw data _ attr channel
          (fun h => by cases h.1) (by omega) (by omega)
      · rcases hcurr rfl with hb | ⟨hb, hc⟩
        · exact absurd hb ha
        · exact read_plane_other_attr A hw data _ attr channel ⟨hb, ha, hc⟩
    case hwmon_power =>
      unfold zenpower_read
      simp only
      by_cases ha : attr = A.hwmon_power_input
      · have hch : ¬ (0 ≤ channel ∧ channel ≤ 1) :=
          fun h => hnd (Or.inr (Or.inr (Or.inr (Or.inr ⟨rfl, ha, h.1, h.2⟩))))
        exact read_plane_other_channel A hw data _ attr channel
          (fun h => hzen5 ⟨rfl, h.2, ha⟩) (by omega) (by omega)
      · rcases hpower rfl with hb | ⟨hb, hc⟩
        · exact absurd hb ha
        · exact read_plane_other_attr A hw data _ attr channel ⟨hb, hc, ha⟩
    all_goals rfl
  · intro ht hm hi
    subst ht
    unfold zenpower_read
    simp only
    rw [if_neg hi, if_pos hm]
    rfl
  · intro ht ha
    rcases ht with ht | ht | ht
    · subst ht
      unfold zenpower_read
      simp only
      by_cases h0 : channel = 0
      · rw [if_pos h0, if_pos h0]
      · rw [if_neg h0, if_neg h0]
        exact read_plane_attr_irrelevant A hw data _ attr _ (channel - 1) ha (Or.inl rfl)
    · subst ht
      unfold zenpower_read
      simp only
      exact read_plane_attr_irrelevant A hw data _ attr _ channel ha (Or.inr (Or.inl rfl))
    · subst ht
      unfold zenpower_read
      simp only
      exact read_plane_attr_irrelevant A hw data _ attr _ channel ha (Or.inr (Or.inr rfl))
  · intro ht hz ha
    subst ht
    unfold zenpower_read
    simp only
    unfold zenpower_read_plane
    rw [if_neg (fun h => h.2.2 ha), if_pos ⟨rfl, hz⟩]

/-- Instance of the amended C21: power input on channel 2 is not a declared
channel, and on hardware without energy counters the read returns
-EOPNOTSUPP. -/
theorem read_undeclared_not_supported_witness :
    ¬ declared_channel linux_hwmon_attr_ids hwmon_sensor_types.hwmon_power 9 2 ∧
    zenpower_read linux_hwmon_attr_ids (hw_const 0) (telemetry_data false 0 0)
        hwmon_sensor_types.hwmon_power 9 2 =
      some { ret := -EOPNOTSUPP, val := none, data := telemetry_data false 0 0 } :=
  ⟨by unfold declared_channel; decide,
   (read_undeclared_not_supported linux_hwmon_attr_ids (hw_const 0)
      (telemetry_data false 0 0) hwmon_sensor_types.hwmon_power 9 2
      (by unfold declared_channel; decide)).1
     (by decide) (by decide) (by decide) (by decide) (by decide)⟩

end Zenpower
